import Mathlib

/-!
Verification of the mc-dc repository (Marching Cubes and Dual Contouring
demonstration code) against its natural-language specification.

The Python sources are shallowly embedded over the rationals:
scalar samples, positions and normals become rationals, Python lists become
Lean lists, and the numpy least-squares solver becomes an explicit function
parameter (the properties below hold for every output the solver could
produce, which subsumes the floating-point behaviour of numpy.linalg.lstsq).

All definitions come first, all theorems afterwards.
-/

namespace McDc

/-- Global settings of settings.py, modelled as an explicit record so that
theorems can quantify over the toggles the way the spec does.  The Python
module reads them as ambient globals. -/
structure Settings where
  adaptive : Bool
  clip : Bool
  boundary : Bool
  bias : Bool
  biasStrength : ℚ
  cellSize : ℚ
deriving Repr, DecidableEq

/-- The literal contents of settings.py: ADAPTIVE = True, CLIP = False,
BOUNDARY = True, BIAS = True, BIAS_STRENGTH = 0.01, CELL_SIZE = 1. -/
def defaultSettings : Settings :=
  { adaptive := true, clip := false, boundary := true, bias := true
    biasStrength := 1/100, cellSize := 1 }

/-- Value of common.adapt when its assertion passes: the linear interpolation
root if ADAPTIVE else the fixed midpoint. -/
def adaptVal (s : Settings) (v0 v1 : ℚ) : ℚ :=
  if s.adaptive then (0 - v0) / (v1 - v0) * s.cellSize
  else 1/2 * s.cellSize

/-- common.adapt.  The Python function asserts that exactly one of v0, v1 is
strictly positive and raises AssertionError otherwise; the failure branch is
modelled as none. -/
def adapt (s : Settings) (v0 v1 : ℚ) : Option ℚ :=
  if decide (v1 > 0) ≠ decide (v0 > 0) then some (adaptVal s v0 v1)
  else none

/-! ## The QEF class of qef.py -/

/-- Dot product of two rows, truncating at the shorter row exactly like a
numpy matmul row would require equal lengths (all call sites are
rectangular). -/
def dotRow (r x : List ℚ) : ℚ := (List.zipWith (fun a b => a * b) r x).sum

/-- qef.QEF: matrix A (list of rows), right-hand side b, and the
fixed-value record (None = free axis). -/
structure QEF where
  A : List (List ℚ)
  b : List ℚ
  fixed_values : List (Option ℚ)
deriving Repr, DecidableEq

/-- QEF.evaluate.  The Python function returns the Euclidean norm
of A*x - b; here the squared norm is used because the rationals have no
square root.  Squaring is strictly monotone on nonnegative reals, so every
comparison (and every argmin) taken over these residuals is unchanged. -/
def QEF.evaluate (q : QEF) (x : List ℚ) : ℚ :=
  (List.zipWith (fun r bi => (dotRow r x - bi)^2) q.A q.b).sum

/-- QEF.eval_with_pos: the residual at x paired with x, matching the
return shape of solve(). -/
def QEF.eval_with_pos (q : QEF) (x : List ℚ) : ℚ × List ℚ :=
  (q.evaluate x, x)

/-- QEF.make_2d.  b pairs positions with normals via zip (Python zip also
truncates at the shorter list).  fixed_values has one None per column of A;
the 2-d call sites always pass 2-vectors, so A has 2 columns. -/
def QEF.make_2d (positions normals : List (ℚ × ℚ)) : QEF :=
  { A := normals.map (fun n => [n.1, n.2])
    b := List.zipWith (fun v n => v.1 * n.1 + v.2 * n.2) positions normals
    fixed_values := [none, none] }

/-- QEF.make_3d, the 3-dimensional analogue of make_2d. -/
def QEF.make_3d (positions normals : List (ℚ × ℚ × ℚ)) : QEF :=
  { A := normals.map (fun n => [n.1, n.2.1, n.2.2])
    b := List.zipWith
          (fun v n => v.1 * n.1 + v.2.1 * n.2.1 + v.2.2 * n.2.2)
          positions normals
    fixed_values := [none, none, none] }

/-- QEF.fix_axis: subtract value times column axis of A from b, delete that
column, and record value in the fixed slot.  The Python code copies b and
fixed_values, so the receiver is untouched; purity makes that automatic
here. -/
def QEF.fix_axis (q : QEF) (axis : ℕ) (value : ℚ) : QEF :=
  { b := List.zipWith (fun bi row => bi - (row.getD axis 0) * value) q.b q.A
    A := q.A.map (fun row => row.eraseIdx axis)
    fixed_values := q.fixed_values.set axis (some value) }

/-- The least-squares solver (numpy.linalg.lstsq) is an explicit parameter:
given A and b it returns the free-axis solution vector together with
numpy's residual list (empty unless A is overdetermined of full rank).
Theorems quantify over it, so they hold for whatever the numeric solver
returns. -/
def Lstsq : Type := List (List ℚ) → List ℚ → List ℚ × List ℚ

/-- The reinsertion loop of QEF.solve: walk the fixed-value record, taking
the next solver output for each free slot and the recorded constant for
each fixed slot.  (Python would raise IndexError on a too-short solver
result; the default 0 is never consulted when the solver is well-formed.) -/
def insertFixed : List (Option ℚ) → List ℚ → List ℚ
  | [], _ => []
  | some v :: fs, rs => v :: insertFixed fs rs
  | none :: fs, rs => rs.headD 0 :: insertFixed fs rs.tail

/-- QEF.solve: run the solver, fall back to evaluate for the residual when
numpy reports none, and rebuild the full position from the fixed record. -/
def QEF.solve (q : QEF) (lstsq : Lstsq) : ℚ × List ℚ :=
  let rr := lstsq q.A q.b
  let residual := if rr.2 = [] then q.evaluate rr.1 else rr.2.headD 0
  (residual, insertFixed q.fixed_values rr.1)

/-! ## Python list ordering and min, used by min(rs) in solve_qef_2d / 3d -/

/-- Python lexicographic comparison of two lists of numbers. -/
def listLtQ : List ℚ → List ℚ → Bool
  | [], [] => false
  | [], _ :: _ => true
  | _ :: _, [] => false
  | a :: as0, b :: bs0 =>
      if a < b then true else if b < a then false else listLtQ as0 bs0

/-- Python tuple comparison of two (residual, position) pairs. -/
def pyLt (a b : ℚ × List ℚ) : Bool :=
  if a.1 < b.1 then true
  else if b.1 < a.1 then false
  else listLtQ a.2 b.2

/-- Python min() over (residual, position) pairs: none models the
ValueError raised on an empty sequence, otherwise the first minimum. -/
def pymin (l : List (ℚ × List ℚ)) : Option (ℚ × List ℚ) :=
  match l with
  | [] => none
  | x :: xs => some (xs.foldl (fun m a => if pyLt a m then a else m) x)

/-! ## solve_qef_2d -/

/-- Componentwise numpy.mean of the 2-d positions. -/
def mean2 (ps : List (ℚ × ℚ)) : ℚ × ℚ :=
  ((ps.map Prod.fst).sum / ps.length, (ps.map Prod.snd).sum / ps.length)

/-- The positions list after the BIAS block of solve_qef_2d: the mass point
is appended once per bias normal (twice). -/
def biasPositions2 (s : Settings) (ps : List (ℚ × ℚ)) : List (ℚ × ℚ) :=
  if s.bias then ps ++ [mean2 ps, mean2 ps] else ps

/-- The normals list after the BIAS block of solve_qef_2d: one bias normal
per axis, scaled by BIAS_STRENGTH. -/
def biasNormals2 (s : Settings) (ns : List (ℚ × ℚ)) : List (ℚ × ℚ) :=
  if s.bias then ns ++ [(s.biasStrength, 0), (0, s.biasStrength)] else ns

/-- The QEF built by solve_qef_2d after the optional BIAS block. -/
def qef2d (s : Settings) (ps ns : List (ℚ × ℚ)) : QEF :=
  QEF.make_2d (biasPositions2 s ps) (biasNormals2 s ns)

/-- The inclusive containment test of solve_qef_2d (local function inside):
both coordinates of the position within [x, x+CELL_SIZE] etc. -/
def inside2 (s : Settings) (x y : ℚ) (r : ℚ × List ℚ) : Bool :=
  decide (x ≤ r.2.getD 0 0) && decide (r.2.getD 0 0 ≤ x + s.cellSize) &&
  decide (y ≤ r.2.getD 1 0) && decide (r.2.getD 1 0 ≤ y + s.cellSize)

/-- First fallback tier of solve_qef_2d: constrain to the four boundary
lines of the cell, then keep the solutions that lie inside. -/
def qef2dTier1 (s : Settings) (lstsq : Lstsq) (x y : ℚ) (qef : QEF) :
    List (ℚ × List ℚ) :=
  [(qef.fix_axis 0 (x + 0)).solve lstsq,
   (qef.fix_axis 0 (x + s.cellSize)).solve lstsq,
   (qef.fix_axis 1 (y + 0)).solve lstsq,
   (qef.fix_axis 1 (y + s.cellSize)).solve lstsq].filter (inside2 s x y)

/-- Final tier of solve_qef_2d: evaluate the residual at the four cell
corners (before the inside filter). -/
def qef2dCorners (s : Settings) (x y : ℚ) (qef : QEF) : List (ℚ × List ℚ) :=
  [qef.eval_with_pos [x + 0, y + 0],
   qef.eval_with_pos [x + 0, y + s.cellSize],
   qef.eval_with_pos [x + s.cellSize, y + 0],
   qef.eval_with_pos [x + s.cellSize, y + s.cellSize]]

/-- numpy.clip of a scalar to [lo, hi]. -/
def clipQ (v lo hi : ℚ) : ℚ := min (max v lo) hi

/-- Result of solve_qef_2d.  point is the returned V2 (none models the
ValueError raised by min on an empty candidate list, which the theorems
show never happens); positionsOut and normalsOut are the caller's lists
after the in-place appends of the BIAS block. -/
structure Qef2dOut where
  point : Option (ℚ × ℚ)
  positionsOut : List (ℚ × ℚ)
  normalsOut : List (ℚ × ℚ)
deriving Repr, DecidableEq

/-- The return step of solve_qef_2d: read the two coordinates of the chosen
position and clamp them into the cell when CLIP is set, as numpy.clip
does. -/
def postClip2 (s : Settings) (x y : ℚ) (m : ℚ × List ℚ) : ℚ × ℚ :=
  if s.clip then
    (clipQ (m.2.getD 0 0) x (x + s.cellSize),
     clipQ (m.2.getD 1 0) y (y + s.cellSize))
  else (m.2.getD 0 0, m.2.getD 1 0)

/-- qef.solve_qef_2d. -/
def solve_qef_2d (s : Settings) (lstsq : Lstsq) (x y : ℚ)
    (positions normals : List (ℚ × ℚ)) : Qef2dOut :=
  let qef := qef2d s positions normals
  let rv := qef.solve lstsq
  let best : Option (ℚ × List ℚ) :=
    if s.boundary then
      if inside2 s x y rv then some rv
      else
        let tier1 := qef2dTier1 s lstsq x y qef
        let rs := if tier1 = [] then
                    (qef2dCorners s x y qef).filter (inside2 s x y)
                  else tier1
        pymin rs
    else some rv
  { point := best.map (postClip2 s x y)
    positionsOut := biasPositions2 s positions
    normalsOut := biasNormals2 s normals }

/-! ## solve_qef_3d -/

/-- Componentwise numpy.mean of the 3-d positions. -/
def mean3 (ps : List (ℚ × ℚ × ℚ)) : ℚ × ℚ × ℚ :=
  ((ps.map (fun p => p.1)).sum / ps.length,
   (ps.map (fun p => p.2.1)).sum / ps.length,
   (ps.map (fun p => p.2.2)).sum / ps.length)

/-- The positions list after the BIAS block of solve_qef_3d. -/
def biasPositions3 (s : Settings) (ps : List (ℚ × ℚ × ℚ)) :
    List (ℚ × ℚ × ℚ) :=
  if s.bias then ps ++ [mean3 ps, mean3 ps, mean3 ps] else ps

/-- The normals list after the BIAS block of solve_qef_3d. -/
def biasNormals3 (s : Settings) (ns : List (ℚ × ℚ × ℚ)) :
    List (ℚ × ℚ × ℚ) :=
  if s.bias then
    ns ++ [(s.biasStrength, 0, 0), (0, s.biasStrength, 0),
           (0, 0, s.biasStrength)]
  else ns

/-- The QEF built by solve_qef_3d after the optional BIAS block. -/
def qef3d (s : Settings) (ps ns : List (ℚ × ℚ × ℚ)) : QEF :=
  QEF.make_3d (biasPositions3 s ps) (biasNormals3 s ns)

/-- The inclusive containment test of solve_qef_3d. -/
def inside3 (s : Settings) (x y z : ℚ) (r : ℚ × List ℚ) : Bool :=
  decide (x ≤ r.2.getD 0 0) && decide (r.2.getD 0 0 ≤ x + s.cellSize) &&
  decide (y ≤ r.2.getD 1 0) && decide (r.2.getD 1 0 ≤ y + s.cellSize) &&
  decide (z ≤ r.2.getD 2 0) && decide (r.2.getD 2 0 ≤ z + s.cellSize)

/-- First fallback tier of solve_qef_3d: the six boundary planes. -/
def qef3dTier1 (s : Settings) (lstsq : Lstsq) (x y z : ℚ) (qef : QEF) :
    List (ℚ × List ℚ) :=
  [(qef.fix_axis 0 (x + 0)).solve lstsq,
   (qef.fix_axis 0 (x + s.cellSize)).solve lstsq,
   (qef.fix_axis 1 (y + 0)).solve lstsq,
   (qef.fix_axis 1 (y + s.cellSize)).solve lstsq,
   (qef.fix_axis 2 (z + 0)).solve lstsq,
   (qef.fix_axis 2 (z + s.cellSize)).solve lstsq].filter (inside3 s x y z)

/-- Second fallback tier of solve_qef_3d: the twelve boundary lines, with
the exact fixing order of the source (the higher axis first, so the second
axis index is still the original coordinate index). -/
def qef3dTier2 (s : Settings) (lstsq : Lstsq) (x y z : ℚ) (qef : QEF) :
    List (ℚ × List ℚ) :=
  [((qef.fix_axis 1 (y + 0)).fix_axis 0 (x + 0)).solve lstsq,
   ((qef.fix_axis 1 (y + s.cellSize)).fix_axis 0 (x + 0)).solve lstsq,
   ((qef.fix_axis 1 (y + 0)).fix_axis 0 (x + s.cellSize)).solve lstsq,
   ((qef.fix_axis 1 (y + s.cellSize)).fix_axis 0 (x + s.cellSize)).solve lstsq,
   ((qef.fix_axis 2 (z + 0)).fix_axis 0 (x + 0)).solve lstsq,
   ((qef.fix_axis 2 (z + s.cellSize)).fix_axis 0 (x + 0)).solve lstsq,
   ((qef.fix_axis 2 (z + 0)).fix_axis 0 (x + s.cellSize)).solve lstsq,
   ((qef.fix_axis 2 (z + s.cellSize)).fix_axis 0 (x + s.cellSize)).solve lstsq,
   ((qef.fix_axis 2 (z + 0)).fix_axis 1 (y + 0)).solve lstsq,
   ((qef.fix_axis 2 (z + s.cellSize)).fix_axis 1 (y + 0)).solve lstsq,
   ((qef.fix_axis 2 (z + 0)).fix_axis 1 (y + s.cellSize)).solve lstsq,
   ((qef.fix_axis 2 (z + s.cellSize)).fix_axis 1 (y + s.cellSize)).solve lstsq
  ].filter (inside3 s x y z)

/-- Final tier of solve_qef_3d: the eight cell corners (before the inside
filter), in source order. -/
def qef3dCorners (s : Settings) (x y z : ℚ) (qef : QEF) :
    List (ℚ × List ℚ) :=
  [qef.eval_with_pos [x + 0, y + 0, z + 0],
   qef.eval_with_pos [x + 0, y + 0, z + s.cellSize],
   qef.eval_with_pos [x + 0, y + s.cellSize, z + 0],
   qef.eval_with_pos [x + 0, y + s.cellSize, z + s.cellSize],
   qef.eval_with_pos [x + s.cellSize, y + 0, z + 0],
   qef.eval_with_pos [x + s.cellSize, y + 0, z + s.cellSize],
   qef.eval_with_pos [x + s.cellSize, y + s.cellSize, z + 0],
   qef.eval_with_pos [x + s.cellSize, y + s.cellSize, z + s.cellSize]]

/-- Result of solve_qef_3d, shaped like Qef2dOut. -/
structure Qef3dOut where
  point : Option (ℚ × ℚ × ℚ)
  positionsOut : List (ℚ × ℚ × ℚ)
  normalsOut : List (ℚ × ℚ × ℚ)
deriving Repr, DecidableEq

/-- The return step of solve_qef_3d, as postClip2. -/
def postClip3 (s : Settings) (x y z : ℚ) (m : ℚ × List ℚ) : ℚ × ℚ × ℚ :=
  if s.clip then
    (clipQ (m.2.getD 0 0) x (x + s.cellSize),
     clipQ (m.2.getD 1 0) y (y + s.cellSize),
     clipQ (m.2.getD 2 0) z (z + s.cellSize))
  else (m.2.getD 0 0, m.2.getD 1 0, m.2.getD 2 0)

/-- qef.solve_qef_3d. -/
def solve_qef_3d (s : Settings) (lstsq : Lstsq) (x y z : ℚ)
    (positions normals : List (ℚ × ℚ × ℚ)) : Qef3dOut :=
  let qef := qef3d s positions normals
  let rv := qef.solve lstsq
  let best : Option (ℚ × List ℚ) :=
    if s.boundary then
      if inside3 s x y z rv then some rv
      else
        let rs0 := qef3dTier1 s lstsq x y z qef
        let rs1 := if rs0 = [] then qef3dTier2 s lstsq x y z qef else rs0
        let rs := if rs1 = [] then
                    (qef3dCorners s x y z qef).filter (inside3 s x y z)
                  else rs1
        pymin rs
    else some rv
  { point := best.map (postClip3 s x y z)
    positionsOut := biasPositions3 s positions
    normalsOut := biasNormals3 s normals }

/-! ## dual_contour_2d_find_best_vertex -/

/-- The sign-change list of dual_contour_2d_find_best_vertex: one crossing
point per cell edge whose endpoint samples differ in strict positivity, in
source order (left, right, bottom, top).  Each adapt call sits under the
exact guard that makes its assertion pass, so adaptVal is its value. -/
def changes2d (s : Settings) (f : ℚ → ℚ → ℚ) (x y : ℚ) : List (ℚ × ℚ) :=
  let x0y0 := f (x + 0) (y + 0)
  let x0y1 := f (x + 0) (y + s.cellSize)
  let x1y0 := f (x + s.cellSize) (y + 0)
  let x1y1 := f (x + s.cellSize) (y + s.cellSize)
  (if decide (x0y0 > 0) ≠ decide (x0y1 > 0)
    then [(x + 0, y + adaptVal s x0y0 x0y1)] else []) ++
  (if decide (x1y0 > 0) ≠ decide (x1y1 > 0)
    then [(x + s.cellSize, y + adaptVal s x1y0 x1y1)] else []) ++
  (if decide (x0y0 > 0) ≠ decide (x1y0 > 0)
    then [(x + adaptVal s x0y0 x1y0, y + 0)] else []) ++
  (if decide (x0y1 > 0) ≠ decide (x1y1 > 0)
    then [(x + adaptVal s x0y1 x1y1, y + s.cellSize)] else [])

/-- The number of sign-changing edges of a 2-d cell (the four cell edges
whose endpoint samples differ in strict positivity). -/
def signChangeCount2d (s : Settings) (f : ℚ → ℚ → ℚ) (x y : ℚ) : ℕ :=
  (if decide (f (x + 0) (y + 0) > 0) ≠
      decide (f (x + 0) (y + s.cellSize) > 0) then 1 else 0) +
  ((if decide (f (x + s.cellSize) (y + 0) > 0) ≠
      decide (f (x + s.cellSize) (y + s.cellSize) > 0) then 1 else 0) +
  ((if decide (f (x + 0) (y + 0) > 0) ≠
      decide (f (x + s.cellSize) (y + 0) > 0) then 1 else 0) +
  (if decide (f (x + 0) (y + s.cellSize) > 0) ≠
      decide (f (x + s.cellSize) (y + s.cellSize) > 0) then 1 else 0)))

/-- dual_contour_2d.dual_contour_2d_find_best_vertex. -/
def dual_contour_2d_find_best_vertex (s : Settings) (lstsq : Lstsq)
    (f : ℚ → ℚ → ℚ) (f_normal : ℚ → ℚ → ℚ × ℚ) (x y : ℚ) :
    Option (ℚ × ℚ) :=
  if s.adaptive = false then
    some (x + 1/2 * s.cellSize, y + 1/2 * s.cellSize)
  else
    let changes := changes2d s f x y
    if changes.length ≤ 1 then none
    else
      let normals := changes.map (fun v => f_normal v.1 v.2)
      (solve_qef_2d s lstsq x y changes normals).point

/-! ## dual_contour_3d_find_best_vertex -/

/-- The sign-change list of dual_contour_3d_find_best_vertex: the twelve
cell edges in source order (the four z-aligned, then the four y-aligned,
then the four x-aligned edges, each scanned in the source's loop order). -/
def changes3d (s : Settings) (f : ℚ → ℚ → ℚ → ℚ) (x y z : ℚ) :
    List (ℚ × ℚ × ℚ) :=
  let cs := s.cellSize
  let v : ℕ → ℕ → ℕ → ℚ := fun dx dy dz =>
    f (x + dx * cs) (y + dy * cs) (z + dz * cs)
  (if decide (v 0 0 0 > 0) ≠ decide (v 0 0 1 > 0)
    then [(x + 0 * cs, y + 0 * cs, z + adaptVal s (v 0 0 0) (v 0 0 1))]
    else []) ++
  (if decide (v 0 1 0 > 0) ≠ decide (v 0 1 1 > 0)
    then [(x + 0 * cs, y + 1 * cs, z + adaptVal s (v 0 1 0) (v 0 1 1))]
    else []) ++
  (if decide (v 1 0 0 > 0) ≠ decide (v 1 0 1 > 0)
    then [(x + 1 * cs, y + 0 * cs, z + adaptVal s (v 1 0 0) (v 1 0 1))]
    else []) ++
  (if decide (v 1 1 0 > 0) ≠ decide (v 1 1 1 > 0)
    then [(x + 1 * cs, y + 1 * cs, z + adaptVal s (v 1 1 0) (v 1 1 1))]
    else []) ++
  (if decide (v 0 0 0 > 0) ≠ decide (v 0 1 0 > 0)
    then [(x + 0 * cs, y + adaptVal s (v 0 0 0) (v 0 1 0), z + 0 * cs)]
    else []) ++
  (if decide (v 0 0 1 > 0) ≠ decide (v 0 1 1 > 0)
    then [(x + 0 * cs, y + adaptVal s (v 0 0 1) (v 0 1 1), z + 1 * cs)]
    else []) ++
  (if decide (v 1 0 0 > 0) ≠ decide (v 1 1 0 > 0)
    then [(x + 1 * cs, y + adaptVal s (v 1 0 0) (v 1 1 0), z + 0 * cs)]
    else []) ++
  (if decide (v 1 0 1 > 0) ≠ decide (v 1 1 1 > 0)
    then [(x + 1 * cs, y + adaptVal s (v 1 0 1) (v 1 1 1), z + 1 * cs)]
    else []) ++
  (if decide (v 0 0 0 > 0) ≠ decide (v 1 0 0 > 0)
    then [(x + adaptVal s (v 0 0 0) (v 1 0 0), y + 0 * cs, z + 0 * cs)]
    else []) ++
  (if decide (v 0 0 1 > 0) ≠ decide (v 1 0 1 > 0)
    then [(x + adaptVal s (v 0 0 1) (v 1 0 1), y + 0 * cs, z + 1 * cs)]
    else []) ++
  (if decide (v 0 1 0 > 0) ≠ decide (v 1 1 0 > 0)
    then [(x + adaptVal s (v 0 1 0) (v 1 1 0), y + 1 * cs, z + 0 * cs)]
    else []) ++
  (if decide (v 0 1 1 > 0) ≠ decide (v 1 1 1 > 0)
    then [(x + adaptVal s (v 0 1 1) (v 1 1 1), y + 1 * cs, z + 1 * cs)]
    else [])

/-- The number of sign-changing edges of a 3-d cell (the twelve cell edges
whose endpoint samples differ in strict positivity), stated directly on the
sampled field. -/
def signChangeCount3d (s : Settings) (f : ℚ → ℚ → ℚ → ℚ) (x y z : ℚ) : ℕ :=
  let cs := s.cellSize
  let v : ℕ → ℕ → ℕ → ℚ := fun dx dy dz =>
    f (x + dx * cs) (y + dy * cs) (z + dz * cs)
  (if decide (v 0 0 0 > 0) ≠ decide (v 0 0 1 > 0) then 1 else 0) +
  ((if decide (v 0 1 0 > 0) ≠ decide (v 0 1 1 > 0) then 1 else 0) +
  ((if decide (v 1 0 0 > 0) ≠ decide (v 1 0 1 > 0) then 1 else 0) +
  ((if decide (v 1 1 0 > 0) ≠ decide (v 1 1 1 > 0) then 1 else 0) +
  ((if decide (v 0 0 0 > 0) ≠ decide (v 0 1 0 > 0) then 1 else 0) +
  ((if decide (v 0 0 1 > 0) ≠ decide (v 0 1 1 > 0) then 1 else 0) +
  ((if decide (v 1 0 0 > 0) ≠ decide (v 1 1 0 > 0) then 1 else 0) +
  ((if decide (v 1 0 1 > 0) ≠ decide (v 1 1 1 > 0) then 1 else 0) +
  ((if decide (v 0 0 0 > 0) ≠ decide (v 1 0 0 > 0) then 1 else 0) +
  ((if decide (v 0 0 1 > 0) ≠ decide (v 1 0 1 > 0) then 1 else 0) +
  ((if decide (v 0 1 0 > 0) ≠ decide (v 1 1 0 > 0) then 1 else 0) +
  (if decide (v 0 1 1 > 0) ≠ decide (v 1 1 1 > 0) then 1 else 0)))))))))))

/-- dual_contour_3d.dual_contour_3d_find_best_vertex. -/
def dual_contour_3d_find_best_vertex (s : Settings) (lstsq : Lstsq)
    (f : ℚ → ℚ → ℚ → ℚ) (f_normal : ℚ → ℚ → ℚ → ℚ × ℚ × ℚ) (x y z : ℚ) :
    Option (ℚ × ℚ × ℚ) :=
  if s.adaptive = false then
    some (x + 1/2 * s.cellSize, y + 1/2 * s.cellSize, z + 1/2 * s.cellSize)
  else
    let changes := changes3d s f x y z
    if changes.length ≤ 1 then none
    else
      let normals := changes.map (fun v => f_normal v.1 v.2.1 v.2.2)
      (solve_qef_3d s lstsq x y z changes normals).point

/-- Projection of a full position onto the free (None) slots of a
fixed-value record, in order; inverse of the reinsertion loop of solve. -/
def selectFree (fs : List (Option ℚ)) (pos : List ℚ) : List ℚ :=
  (fs.zip pos).filterMap (fun p => if p.1 = none then some p.2 else none)

/-- The number of free (None) slots of a fixed-value record; equals the
column count of A, the length numpy.linalg.lstsq gives its solution. -/
def countFree (fs : List (Option ℚ)) : ℕ :=
  (fs.filter (fun o => o.isNone)).length

/-! ## marching_cubes_2d_prop.py

This module carries its own constants (ADAPTIVE = True, CELL_SIZE = 1)
rather than reading settings.py. -/

/-- marching_cubes_2d_prop.ADAPTIVE. -/
def mcpAdaptive : Bool := true

/-- marching_cubes_2d_prop.CELL_SIZE. -/
def mcpCellSize : ℚ := 1

/-- The adapt function local to marching_cubes_2d_prop.py, taken at the
value its assertion allows (every call in the single-cell function is
guarded by the matching sign-change case). -/
def adaptProp (v0 v1 : ℚ) : ℚ :=
  if mcpAdaptive then (0 - v0) / (v1 - v0) * mcpCellSize
  else 1/2 * mcpCellSize

/-- An output edge of the property-painting 2-d Marching Cubes: two
endpoints and the property value attached to the edge. -/
structure PropEdge (α : Type) where
  v1 : ℚ × ℚ
  v2 : ℚ × ℚ
  prop : α
deriving Repr, DecidableEq

/-- marching_cubes_2d_prop.split_edge (the print statements are
side-effect-free logging and are dropped). -/
def split_edge {α : Type} [DecidableEq α] (v1 v2 : ℚ × ℚ) (prop1 prop2 : α) :
    List (PropEdge α) :=
  if prop1 = prop2 then [{ v1 := v1, v2 := v2, prop := prop1 }]
  else
    let mid_point : ℚ × ℚ := ((v1.1 + v2.1) / 2, (v1.2 + v2.2) / 2)
    [{ v1 := v1, v2 := mid_point, prop := prop1 },
     { v1 := mid_point, v2 := v2, prop := prop2 }]

/-- The property selector that marching_cubes_2d_single_cell inlines at
every branch: `pFirst if a <= 0.5 else pSecond`.  Written once here and
used at each of the source's eighteen occurrences; note the tie a = 0.5
selects the first operand. -/
def pickProp {α : Type} (a : ℚ) (pFirst pSecond : α) : α :=
  if a ≤ 1/2 then pFirst else pSecond

/-- marching_cubes_2d_prop.marching_cubes_2d_single_cell. -/
def marching_cubes_2d_single_cell {α : Type} [DecidableEq α]
    (f : ℚ → ℚ → ℚ) (f_property : ℚ → ℚ → α) (x y : ℚ) :
    List (PropEdge α) :=
  let x0y0 := f x y
  let x0y1 := f x (y + mcpCellSize)
  let x1y0 := f (x + mcpCellSize) y
  let x1y1 := f (x + mcpCellSize) (y + mcpCellSize)
  let p_x0y0 := f_property x y
  let p_x0y1 := f_property x (y + mcpCellSize)
  let p_x1y0 := f_property (x + mcpCellSize) y
  let p_x1y1 := f_property (x + mcpCellSize) (y + mcpCellSize)
  let case : ℕ :=
    (if x0y0 > 0 then 1 else 0) + (if x0y1 > 0 then 2 else 0) +
    (if x1y0 > 0 then 4 else 0) + (if x1y1 > 0 then 8 else 0)
  if case = 0 ∨ case = 15 then []
  else if case = 1 ∨ case = 14 then
    let a1 := adaptProp x0y0 x1y0
    let a2 := adaptProp x0y0 x0y1
    split_edge (x + a1, y) (x, y + a2)
      (pickProp a1 p_x0y0 p_x1y0) (pickProp a2 p_x0y0 p_x0y1)
  else if case = 2 ∨ case = 13 then
    let a1 := adaptProp x0y0 x0y1
    let a2 := adaptProp x0y1 x1y1
    split_edge (x, y + a1) (x + a2, y + mcpCellSize)
      (pickProp a1 p_x0y0 p_x0y1) (pickProp a2 p_x0y1 p_x1y1)
  else if case = 4 ∨ case = 11 then
    let a1 := adaptProp x1y0 x1y1
    let a2 := adaptProp x0y0 x1y0
    split_edge (x + mcpCellSize, y + a1) (x + a2, y)
      (pickProp a1 p_x1y0 p_x1y1) (pickProp a2 p_x0y0 p_x1y0)
  else if case = 8 ∨ case = 7 then
    let a1 := adaptProp x0y1 x1y1
    let a2 := adaptProp x1y0 x1y1
    split_edge (x + a1, y + mcpCellSize) (x + mcpCellSize, y + a2)
      (pickProp a1 p_x0y1 p_x1y1) (pickProp a2 p_x1y0 p_x1y1)
  else if case = 3 ∨ case = 12 then
    let a1 := adaptProp x0y0 x1y0
    let a2 := adaptProp x0y1 x1y1
    split_edge (x + a1, y) (x + a2, y + mcpCellSize)
      (pickProp a1 p_x0y0 p_x1y0) (pickProp a2 p_x0y1 p_x1y1)
  else if case = 5 ∨ case = 10 then
    let a1 := adaptProp x0y0 x0y1
    let a2 := adaptProp x1y0 x1y1
    split_edge (x, y + a1) (x + mcpCellSize, y + a2)
      (pickProp a1 p_x0y0 p_x0y1) (pickProp a2 p_x1y0 p_x1y1)
  else if case = 9 then
    let a1 := adaptProp x0y0 x0y1
    let a2 := adaptProp x0y0 x0y1
    let a3 := adaptProp x0y1 x1y1
    let a4 := adaptProp x1y0 x1y1
    split_edge (x + a1, y) (x, y + a2)
      (pickProp a1 p_x0y0 p_x1y0) (pickProp a2 p_x0y0 p_x0y1) ++
    split_edge (x + a3, y + mcpCellSize) (x + mcpCellSize, y + a4)
      (pickProp a3 p_x0y1 p_x1y1) (pickProp a4 p_x1y0 p_x1y1)
  else if case = 6 then
    let a1 := adaptProp x1y0 x1y1
    let a2 := adaptProp x0y0 x1y0
    let a3 := adaptProp x0y0 x0y1
    let a4 := adaptProp x0y1 x1y1
    split_edge (x + mcpCellSize, y + a1) (x + a2, y)
      (pickProp a1 p_x1y0 p_x1y1) (pickProp a2 p_x0y0 p_x1y0) ++
    split_edge (x, y + a3) (x + a4, y + mcpCellSize)
      (pickProp a3 p_x0y0 p_x0y1) (pickProp a4 p_x0y1 p_x1y1)
  else []

/-- A field whose sample is -1 at the origin and 1 elsewhere, putting the
zero crossing exactly halfway along the origin's edges. -/
def tieField (a b : ℚ) : ℚ := if a = 0 ∧ b = 0 then -1 else 1

/-- A property function that tags each corner with its own coordinates, so
different corners always carry different properties. -/
def coordProp (a b : ℚ) : ℚ × ℚ := (a, b)

/-! ## marching_cubes_3d.py: edges and the hardcoded case table -/

/-- The EDGES list shared by marching_cubes_3d.py and
marching_cubes_gen.py: each cube edge as its pair of corner indices. -/
def EDGES : List (ℕ × ℕ) :=
  [(0, 1), (1, 2), (2, 3), (3, 0),
   (4, 5), (5, 6), (6, 7), (7, 4),
   (0, 4), (1, 5), (2, 6), (3, 7)]

/-- The hardcoded 256-entry Marching Cubes table of marching_cubes_3d.py:
index = solidity bitmask, entry = triangles as triples of edge ids. -/
def cases : List (List (List ℕ)) :=
  [[],
  [[8, 0, 3]],
  [[1, 0, 9]],
  [[8, 1, 3], [8, 9, 1]],
  [[10, 2, 1]],
  [[8, 0, 3], [1, 10, 2]],
  [[9, 2, 0], [9, 10, 2]],
  [[3, 8, 2], [2, 8, 10], [10, 8, 9]],
  [[3, 2, 11]],
  [[0, 2, 8], [2, 11, 8]],
  [[1, 0, 9], [2, 11, 3]],
  [[2, 9, 1], [11, 9, 2], [8, 9, 11]],
  [[3, 10, 11], [3, 1, 10]],
  [[1, 10, 0], [0, 10, 8], [8, 10, 11]],
  [[0, 11, 3], [9, 11, 0], [10, 11, 9]],
  [[8, 9, 11], [11, 9, 10]],
  [[7, 4, 8]],
  [[3, 7, 0], [7, 4, 0]],
  [[7, 4, 8], [9, 1, 0]],
  [[9, 1, 4], [4, 1, 7], [7, 1, 3]],
  [[7, 4, 8], [2, 1, 10]],
  [[4, 3, 7], [4, 0, 3], [2, 1, 10]],
  [[2, 0, 10], [0, 9, 10], [7, 4, 8]],
  [[9, 10, 4], [4, 10, 3], [3, 10, 2], [4, 3, 7]],
  [[4, 8, 7], [3, 2, 11]],
  [[7, 4, 11], [11, 4, 2], [2, 4, 0]],
  [[1, 0, 9], [2, 11, 3], [8, 7, 4]],
  [[2, 11, 1], [1, 11, 9], [9, 11, 7], [9, 7, 4]],
  [[10, 11, 1], [11, 3, 1], [4, 8, 7]],
  [[4, 0, 7], [7, 0, 10], [0, 1, 10], [7, 10, 11]],
  [[7, 4, 8], [0, 11, 3], [9, 11, 0], [10, 11, 9]],
  [[4, 11, 7], [9, 11, 4], [10, 11, 9]],
  [[9, 4, 5]],
  [[9, 4, 5], [0, 3, 8]],
  [[0, 5, 1], [0, 4, 5]],
  [[4, 3, 8], [5, 3, 4], [1, 3, 5]],
  [[5, 9, 4], [10, 2, 1]],
  [[8, 0, 3], [1, 10, 2], [4, 5, 9]],
  [[10, 4, 5], [2, 4, 10], [0, 4, 2]],
  [[3, 10, 2], [8, 10, 3], [5, 10, 8], [4, 5, 8]],
  [[9, 4, 5], [11, 3, 2]],
  [[11, 0, 2], [11, 8, 0], [9, 4, 5]],
  [[5, 1, 4], [1, 0, 4], [11, 3, 2]],
  [[5, 1, 4], [4, 1, 11], [1, 2, 11], [4, 11, 8]],
  [[3, 10, 11], [3, 1, 10], [5, 9, 4]],
  [[9, 4, 5], [1, 10, 0], [0, 10, 8], [8, 10, 11]],
  [[5, 0, 4], [11, 0, 5], [11, 3, 0], [10, 11, 5]],
  [[5, 10, 4], [4, 10, 8], [8, 10, 11]],
  [[9, 7, 5], [9, 8, 7]],
  [[0, 5, 9], [3, 5, 0], [7, 5, 3]],
  [[8, 7, 0], [0, 7, 1], [1, 7, 5]],
  [[7, 5, 3], [3, 5, 1]],
  [[7, 5, 8], [5, 9, 8], [2, 1, 10]],
  [[10, 2, 1], [0, 5, 9], [3, 5, 0], [7, 5, 3]],
  [[8, 2, 0], [5, 2, 8], [10, 2, 5], [7, 5, 8]],
  [[2, 3, 10], [10, 3, 5], [5, 3, 7]],
  [[9, 7, 5], [9, 8, 7], [11, 3, 2]],
  [[0, 2, 9], [9, 2, 7], [7, 2, 11], [9, 7, 5]],
  [[3, 2, 11], [8, 7, 0], [0, 7, 1], [1, 7, 5]],
  [[11, 1, 2], [7, 1, 11], [5, 1, 7]],
  [[3, 1, 11], [11, 1, 10], [8, 7, 9], [9, 7, 5]],
  [[11, 7, 0], [7, 5, 0], [5, 9, 0], [10, 11, 0], [1, 10, 0]],
  [[0, 5, 10], [0, 7, 5], [0, 8, 7], [0, 10, 11], [0, 11, 3]],
  [[10, 11, 5], [11, 7, 5]],
  [[5, 6, 10]],
  [[8, 0, 3], [10, 5, 6]],
  [[0, 9, 1], [5, 6, 10]],
  [[8, 1, 3], [8, 9, 1], [10, 5, 6]],
  [[1, 6, 2], [1, 5, 6]],
  [[6, 2, 5], [2, 1, 5], [8, 0, 3]],
  [[5, 6, 9], [9, 6, 0], [0, 6, 2]],
  [[5, 8, 9], [2, 8, 5], [3, 8, 2], [6, 2, 5]],
  [[3, 2, 11], [10, 5, 6]],
  [[0, 2, 8], [2, 11, 8], [5, 6, 10]],
  [[3, 2, 11], [0, 9, 1], [10, 5, 6]],
  [[5, 6, 10], [2, 9, 1], [11, 9, 2], [8, 9, 11]],
  [[11, 3, 6], [6, 3, 5], [5, 3, 1]],
  [[11, 8, 6], [6, 8, 1], [1, 8, 0], [6, 1, 5]],
  [[5, 0, 9], [6, 0, 5], [3, 0, 6], [11, 3, 6]],
  [[6, 9, 5], [11, 9, 6], [8, 9, 11]],
  [[7, 4, 8], [6, 10, 5]],
  [[3, 7, 0], [7, 4, 0], [10, 5, 6]],
  [[7, 4, 8], [6, 10, 5], [9, 1, 0]],
  [[5, 6, 10], [9, 1, 4], [4, 1, 7], [7, 1, 3]],
  [[1, 6, 2], [1, 5, 6], [7, 4, 8]],
  [[6, 1, 5], [2, 1, 6], [0, 7, 4], [3, 7, 0]],
  [[4, 8, 7], [5, 6, 9], [9, 6, 0], [0, 6, 2]],
  [[2, 3, 9], [3, 7, 9], [7, 4, 9], [6, 2, 9], [5, 6, 9]],
  [[2, 11, 3], [7, 4, 8], [10, 5, 6]],
  [[6, 10, 5], [7, 4, 11], [11, 4, 2], [2, 4, 0]],
  [[1, 0, 9], [8, 7, 4], [3, 2, 11], [5, 6, 10]],
  [[1, 2, 9], [9, 2, 11], [9, 11, 4], [4, 11, 7], [5, 6, 10]],
  [[7, 4, 8], [11, 3, 6], [6, 3, 5], [5, 3, 1]],
  [[11, 0, 1], [11, 4, 0], [11, 7, 4], [11, 1, 5], [11, 5, 6]],
  [[6, 9, 5], [0, 9, 6], [11, 0, 6], [3, 0, 11], [4, 8, 7]],
  [[5, 6, 9], [9, 6, 11], [9, 11, 7], [9, 7, 4]],
  [[4, 10, 9], [4, 6, 10]],
  [[10, 4, 6], [10, 9, 4], [8, 0, 3]],
  [[1, 0, 10], [10, 0, 6], [6, 0, 4]],
  [[8, 1, 3], [6, 1, 8], [6, 10, 1], [4, 6, 8]],
  [[9, 2, 1], [4, 2, 9], [6, 2, 4]],
  [[3, 8, 0], [9, 2, 1], [4, 2, 9], [6, 2, 4]],
  [[0, 4, 2], [2, 4, 6]],
  [[8, 2, 3], [4, 2, 8], [6, 2, 4]],
  [[4, 10, 9], [4, 6, 10], [2, 11, 3]],
  [[11, 8, 2], [2, 8, 0], [6, 10, 4], [4, 10, 9]],
  [[2, 11, 3], [1, 0, 10], [10, 0, 6], [6, 0, 4]],
  [[8, 4, 1], [4, 6, 1], [6, 10, 1], [11, 8, 1], [2, 11, 1]],
  [[3, 1, 11], [11, 1, 4], [1, 9, 4], [11, 4, 6]],
  [[6, 11, 1], [11, 8, 1], [8, 0, 1], [4, 6, 1], [9, 4, 1]],
  [[3, 0, 11], [11, 0, 6], [6, 0, 4]],
  [[4, 11, 8], [4, 6, 11]],
  [[6, 8, 7], [10, 8, 6], [9, 8, 10]],
  [[3, 7, 0], [0, 7, 10], [7, 6, 10], [0, 10, 9]],
  [[1, 6, 10], [0, 6, 1], [7, 6, 0], [8, 7, 0]],
  [[10, 1, 6], [6, 1, 7], [7, 1, 3]],
  [[9, 8, 1], [1, 8, 6], [6, 8, 7], [1, 6, 2]],
  [[9, 7, 6], [9, 3, 7], [9, 0, 3], [9, 6, 2], [9, 2, 1]],
  [[7, 6, 8], [8, 6, 0], [0, 6, 2]],
  [[3, 6, 2], [3, 7, 6]],
  [[3, 2, 11], [6, 8, 7], [10, 8, 6], [9, 8, 10]],
  [[7, 9, 0], [7, 10, 9], [7, 6, 10], [7, 0, 2], [7, 2, 11]],
  [[0, 10, 1], [6, 10, 0], [8, 6, 0], [7, 6, 8], [2, 11, 3]],
  [[1, 6, 10], [7, 6, 1], [11, 7, 1], [2, 11, 1]],
  [[1, 9, 6], [9, 8, 6], [8, 7, 6], [3, 1, 6], [11, 3, 6]],
  [[9, 0, 1], [11, 7, 6]],
  [[0, 11, 3], [6, 11, 0], [7, 6, 0], [8, 7, 0]],
  [[7, 6, 11]],
  [[11, 6, 7]],
  [[3, 8, 0], [11, 6, 7]],
  [[1, 0, 9], [6, 7, 11]],
  [[1, 3, 9], [3, 8, 9], [6, 7, 11]],
  [[10, 2, 1], [6, 7, 11]],
  [[10, 2, 1], [3, 8, 0], [6, 7, 11]],
  [[9, 2, 0], [9, 10, 2], [11, 6, 7]],
  [[11, 6, 7], [3, 8, 2], [2, 8, 10], [10, 8, 9]],
  [[2, 6, 3], [6, 7, 3]],
  [[8, 6, 7], [0, 6, 8], [2, 6, 0]],
  [[7, 2, 6], [7, 3, 2], [1, 0, 9]],
  [[8, 9, 7], [7, 9, 2], [2, 9, 1], [7, 2, 6]],
  [[6, 1, 10], [7, 1, 6], [3, 1, 7]],
  [[8, 0, 7], [7, 0, 6], [6, 0, 1], [6, 1, 10]],
  [[7, 3, 6], [6, 3, 9], [3, 0, 9], [6, 9, 10]],
  [[7, 8, 6], [6, 8, 10], [10, 8, 9]],
  [[8, 11, 4], [11, 6, 4]],
  [[11, 0, 3], [6, 0, 11], [4, 0, 6]],
  [[6, 4, 11], [4, 8, 11], [1, 0, 9]],
  [[1, 3, 9], [9, 3, 6], [3, 11, 6], [9, 6, 4]],
  [[8, 11, 4], [11, 6, 4], [1, 10, 2]],
  [[1, 10, 2], [11, 0, 3], [6, 0, 11], [4, 0, 6]],
  [[2, 9, 10], [0, 9, 2], [4, 11, 6], [8, 11, 4]],
  [[3, 4, 9], [3, 6, 4], [3, 11, 6], [3, 9, 10], [3, 10, 2]],
  [[3, 2, 8], [8, 2, 4], [4, 2, 6]],
  [[2, 4, 0], [6, 4, 2]],
  [[0, 9, 1], [3, 2, 8], [8, 2, 4], [4, 2, 6]],
  [[1, 2, 9], [9, 2, 4], [4, 2, 6]],
  [[10, 3, 1], [4, 3, 10], [4, 8, 3], [6, 4, 10]],
  [[10, 0, 1], [6, 0, 10], [4, 0, 6]],
  [[3, 10, 6], [3, 9, 10], [3, 0, 9], [3, 6, 4], [3, 4, 8]],
  [[9, 10, 4], [10, 6, 4]],
  [[9, 4, 5], [7, 11, 6]],
  [[9, 4, 5], [7, 11, 6], [0, 3, 8]],
  [[0, 5, 1], [0, 4, 5], [6, 7, 11]],
  [[11, 6, 7], [4, 3, 8], [5, 3, 4], [1, 3, 5]],
  [[1, 10, 2], [9, 4, 5], [6, 7, 11]],
  [[8, 0, 3], [4, 5, 9], [10, 2, 1], [11, 6, 7]],
  [[7, 11, 6], [10, 4, 5], [2, 4, 10], [0, 4, 2]],
  [[8, 2, 3], [10, 2, 8], [4, 10, 8], [5, 10, 4], [11, 6, 7]],
  [[2, 6, 3], [6, 7, 3], [9, 4, 5]],
  [[5, 9, 4], [8, 6, 7], [0, 6, 8], [2, 6, 0]],
  [[7, 3, 6], [6, 3, 2], [4, 5, 0], [0, 5, 1]],
  [[8, 1, 2], [8, 5, 1], [8, 4, 5], [8, 2, 6], [8, 6, 7]],
  [[9, 4, 5], [6, 1, 10], [7, 1, 6], [3, 1, 7]],
  [[7, 8, 6], [6, 8, 0], [6, 0, 10], [10, 0, 1], [5, 9, 4]],
  [[3, 0, 10], [0, 4, 10], [4, 5, 10], [7, 3, 10], [6, 7, 10]],
  [[8, 6, 7], [10, 6, 8], [5, 10, 8], [4, 5, 8]],
  [[5, 9, 6], [6, 9, 11], [11, 9, 8]],
  [[11, 6, 3], [3, 6, 0], [0, 6, 5], [0, 5, 9]],
  [[8, 11, 0], [0, 11, 5], [5, 11, 6], [0, 5, 1]],
  [[6, 3, 11], [5, 3, 6], [1, 3, 5]],
  [[10, 2, 1], [5, 9, 6], [6, 9, 11], [11, 9, 8]],
  [[3, 11, 0], [0, 11, 6], [0, 6, 9], [9, 6, 5], [1, 10, 2]],
  [[0, 8, 5], [8, 11, 5], [11, 6, 5], [2, 0, 5], [10, 2, 5]],
  [[11, 6, 3], [3, 6, 5], [3, 5, 10], [3, 10, 2]],
  [[3, 9, 8], [6, 9, 3], [5, 9, 6], [2, 6, 3]],
  [[9, 6, 5], [0, 6, 9], [2, 6, 0]],
  [[6, 5, 8], [5, 1, 8], [1, 0, 8], [2, 6, 8], [3, 2, 8]],
  [[2, 6, 1], [6, 5, 1]],
  [[6, 8, 3], [6, 9, 8], [6, 5, 9], [6, 3, 1], [6, 1, 10]],
  [[1, 10, 0], [0, 10, 6], [0, 6, 5], [0, 5, 9]],
  [[3, 0, 8], [6, 5, 10]],
  [[10, 6, 5]],
  [[5, 11, 10], [5, 7, 11]],
  [[5, 11, 10], [5, 7, 11], [3, 8, 0]],
  [[11, 10, 7], [10, 5, 7], [0, 9, 1]],
  [[5, 7, 10], [10, 7, 11], [9, 1, 8], [8, 1, 3]],
  [[2, 1, 11], [11, 1, 7], [7, 1, 5]],
  [[3, 8, 0], [2, 1, 11], [11, 1, 7], [7, 1, 5]],
  [[2, 0, 11], [11, 0, 5], [5, 0, 9], [11, 5, 7]],
  [[2, 9, 5], [2, 8, 9], [2, 3, 8], [2, 5, 7], [2, 7, 11]],
  [[10, 3, 2], [5, 3, 10], [7, 3, 5]],
  [[10, 0, 2], [7, 0, 10], [8, 0, 7], [5, 7, 10]],
  [[0, 9, 1], [10, 3, 2], [5, 3, 10], [7, 3, 5]],
  [[7, 8, 2], [8, 9, 2], [9, 1, 2], [5, 7, 2], [10, 5, 2]],
  [[3, 1, 7], [7, 1, 5]],
  [[0, 7, 8], [1, 7, 0], [5, 7, 1]],
  [[9, 5, 0], [0, 5, 3], [3, 5, 7]],
  [[5, 7, 9], [7, 8, 9]],
  [[4, 10, 5], [8, 10, 4], [11, 10, 8]],
  [[3, 4, 0], [10, 4, 3], [10, 5, 4], [11, 10, 3]],
  [[1, 0, 9], [4, 10, 5], [8, 10, 4], [11, 10, 8]],
  [[4, 3, 11], [4, 1, 3], [4, 9, 1], [4, 11, 10], [4, 10, 5]],
  [[1, 5, 2], [2, 5, 8], [5, 4, 8], [2, 8, 11]],
  [[5, 4, 11], [4, 0, 11], [0, 3, 11], [1, 5, 11], [2, 1, 11]],
  [[5, 11, 2], [5, 8, 11], [5, 4, 8], [5, 2, 0], [5, 0, 9]],
  [[5, 4, 9], [2, 3, 11]],
  [[3, 4, 8], [2, 4, 3], [5, 4, 2], [10, 5, 2]],
  [[5, 4, 10], [10, 4, 2], [2, 4, 0]],
  [[2, 8, 3], [4, 8, 2], [10, 4, 2], [5, 4, 10], [0, 9, 1]],
  [[4, 10, 5], [2, 10, 4], [1, 2, 4], [9, 1, 4]],
  [[8, 3, 4], [4, 3, 5], [5, 3, 1]],
  [[1, 5, 0], [5, 4, 0]],
  [[5, 0, 9], [3, 0, 5], [8, 3, 5], [4, 8, 5]],
  [[5, 4, 9]],
  [[7, 11, 4], [4, 11, 9], [9, 11, 10]],
  [[8, 0, 3], [7, 11, 4], [4, 11, 9], [9, 11, 10]],
  [[0, 4, 1], [1, 4, 11], [4, 7, 11], [1, 11, 10]],
  [[10, 1, 4], [1, 3, 4], [3, 8, 4], [11, 10, 4], [7, 11, 4]],
  [[9, 4, 1], [1, 4, 2], [2, 4, 7], [2, 7, 11]],
  [[1, 9, 2], [2, 9, 4], [2, 4, 11], [11, 4, 7], [3, 8, 0]],
  [[11, 4, 7], [2, 4, 11], [0, 4, 2]],
  [[7, 11, 4], [4, 11, 2], [4, 2, 3], [4, 3, 8]],
  [[10, 9, 2], [2, 9, 7], [7, 9, 4], [2, 7, 3]],
  [[2, 10, 7], [10, 9, 7], [9, 4, 7], [0, 2, 7], [8, 0, 7]],
  [[10, 4, 7], [10, 0, 4], [10, 1, 0], [10, 7, 3], [10, 3, 2]],
  [[8, 4, 7], [10, 1, 2]],
  [[4, 1, 9], [7, 1, 4], [3, 1, 7]],
  [[8, 0, 7], [7, 0, 1], [7, 1, 9], [7, 9, 4]],
  [[0, 7, 3], [0, 4, 7]],
  [[8, 4, 7]],
  [[9, 8, 10], [10, 8, 11]],
  [[3, 11, 0], [0, 11, 9], [9, 11, 10]],
  [[0, 10, 1], [8, 10, 0], [11, 10, 8]],
  [[11, 10, 3], [10, 1, 3]],
  [[1, 9, 2], [2, 9, 11], [11, 9, 8]],
  [[9, 2, 1], [11, 2, 9], [3, 11, 9], [0, 3, 9]],
  [[8, 2, 0], [8, 11, 2]],
  [[11, 2, 3]],
  [[2, 8, 3], [10, 8, 2], [9, 8, 10]],
  [[0, 2, 9], [2, 10, 9]],
  [[3, 2, 8], [8, 2, 10], [8, 10, 1], [8, 1, 0]],
  [[1, 2, 10]],
  [[3, 1, 8], [1, 9, 8]],
  [[9, 0, 1]],
  [[3, 0, 8]],
  []]

/-! ## Shared-face geometry for the crack-freeness check (claim C3)

Direction d = 0, 1, 2 means the neighbour cube sits at +x, +y, +z of the
current cube.  posCorners/posFaceEdges list the corners and edges of the
current cube's far face, negCorners/negFaceEdges the matching corners and
edges of the neighbour's near face, index-aligned so that entry i of each
pos list occupies the same spatial position as entry i of the neg list
(per the VERTICES and EDGES tables of marching_cubes_3d.py). -/

/-- Corners of the positive face of a cube in direction d. -/
def posCorners (d : ℕ) : List ℕ :=
  if d = 0 then [1, 2, 5, 6] else if d = 1 then [2, 3, 6, 7]
  else [4, 5, 6, 7]

/-- Spatially matching corners of the neighbour's negative face. -/
def negCorners (d : ℕ) : List ℕ :=
  if d = 0 then [0, 3, 4, 7] else if d = 1 then [1, 0, 5, 4]
  else [0, 1, 2, 3]

/-- Edges of the positive face of a cube in direction d. -/
def posFaceEdges (d : ℕ) : List ℕ :=
  if d = 0 then [1, 5, 9, 10] else if d = 1 then [2, 6, 10, 11]
  else [4, 5, 6, 7]

/-- Edges of the neighbour's negative face. -/
def negFaceEdges (d : ℕ) : List ℕ :=
  if d = 0 then [3, 7, 8, 11] else if d = 1 then [0, 4, 9, 8]
  else [0, 1, 2, 3]

/-- The edge correspondence across the shared face: each positive-face
edge paired with the neighbour edge occupying the same position. -/
def corrList (d : ℕ) : List (ℕ × ℕ) :=
  if d = 0 then [(1, 3), (5, 7), (9, 8), (10, 11)]
  else if d = 1 then [(2, 0), (6, 4), (10, 9), (11, 8)]
  else [(4, 0), (5, 1), (6, 2), (7, 3)]

/-- Translate a positive-face edge id to the neighbour's edge id. -/
def corrEdge (d e : ℕ) : ℕ := ((corrList d).lookup e).getD e

/-- Order the two edge ids of a segment. -/
def sortPair (a b : ℕ) : ℕ × ℕ := if a ≤ b then (a, b) else (b, a)

/-- The three sides of a triangle given as its three edge ids, each side
as an unordered pair of the edge ids it connects. -/
def triSides (t : List ℕ) : List (ℕ × ℕ) :=
  match t with
  | [a, b, c] => [sortPair a b, sortPair b c, sortPair c a]
  | _ => []

/-- The segments of a bitmask's triangulation lying in a given face: the
triangle sides both of whose crossing vertices sit on edges of that face
(such a side lies in the face plane). -/
def segsOnFace (m : ℕ) (fe : List ℕ) : List (ℕ × ℕ) :=
  ((cases.getD m []).flatMap triSides).filter
    (fun p => decide (p.1 ∈ fe) && decide (p.2 ∈ fe))

/-- Lexicographic order on segment pairs. -/
def pairLe (p q : ℕ × ℕ) : Bool :=
  if p.1 < q.1 then true else if q.1 < p.1 then false else p.2 ≤ q.2

/-- Ordered insertion for the canonical sorting of segment lists. -/
def insSorted (p : ℕ × ℕ) : List (ℕ × ℕ) → List (ℕ × ℕ)
  | [] => [p]
  | q :: t => if pairLe p q then p :: q :: t else q :: insSorted p t

/-- Canonical sorted form of a segment list (insertion sort), so that two
segment multisets are equal exactly when their sorted forms are. -/
def sortSegs (l : List (ℕ × ℕ)) : List (ℕ × ℕ) := l.foldr insSorted []

/-- The segments a bitmask induces on its positive face in direction d,
translated to the neighbour's edge ids and sorted. -/
def posSegs (d m : ℕ) : List (ℕ × ℕ) :=
  sortSegs ((segsOnFace m (posFaceEdges d)).map
    (fun p => sortPair (corrEdge d p.1) (corrEdge d p.2)))

/-- The segments a bitmask induces on its negative face in direction d,
sorted. -/
def negSegs (d m : ℕ) : List (ℕ × ℕ) :=
  sortSegs (segsOnFace m (negFaceEdges d))

/-- The 4-bit pattern a bitmask carries on its positive face. -/
def faceKeyPos (d m : ℕ) : ℕ :=
  (if Nat.testBit m ((posCorners d).getD 0 0) then 1 else 0) +
  (if Nat.testBit m ((posCorners d).getD 1 0) then 2 else 0) +
  (if Nat.testBit m ((posCorners d).getD 2 0) then 4 else 0) +
  (if Nat.testBit m ((posCorners d).getD 3 0) then 8 else 0)

/-- The 4-bit pattern a bitmask carries on its negative face, in the
spatially matching bit order. -/
def faceKeyNeg (d m : ℕ) : ℕ :=
  (if Nat.testBit m ((negCorners d).getD 0 0) then 1 else 0) +
  (if Nat.testBit m ((negCorners d).getD 1 0) then 2 else 0) +
  (if Nat.testBit m ((negCorners d).getD 2 0) then 4 else 0) +
  (if Nat.testBit m ((negCorners d).getD 3 0) then 8 else 0)

/-- A representative bitmask carrying a given 4-bit pattern on the
positive face of direction d and zeros elsewhere. -/
def spread (d k : ℕ) : ℕ :=
  (if Nat.testBit k 0 then 2^((posCorners d).getD 0 0) else 0) +
  (if Nat.testBit k 1 then 2^((posCorners d).getD 1 0) else 0) +
  (if Nat.testBit k 2 then 2^((posCorners d).getD 2 0) else 0) +
  (if Nat.testBit k 3 then 2^((posCorners d).getD 3 0) else 0)

/-- The canonical face triangulation of a 4-bit pattern: the segments of
the representative mask. -/
def canon (d k : ℕ) : List (ℕ × ℕ) := posSegs d (spread d k)

/-! ## marching_cubes_gen.py: the case-table generator -/

/-- The 15 hand-authored base cases, in source (insertion) order. -/
def BASE_CASES : List (ℕ × List (List ℕ)) :=
  [(0b00000000, []),
   (0b00000001, [[8, 0, 3]]),
   (0b00000011, [[8, 1, 3], [8, 9, 1]]),
   (0b00000101, [[8, 0, 3], [1, 10, 2]]),
   (0b01000001, [[8, 0, 3], [10, 5, 6]]),
   (0b00110010, [[8, 7, 0], [0, 7, 1], [1, 7, 5]]),
   (0b01000011, [[8, 1, 3], [8, 9, 1], [10, 5, 6]]),
   (0b01001010, [[3, 2, 11], [0, 9, 1], [10, 5, 6]]),
   (0b00110011, [[7, 5, 3], [3, 5, 1]]),
   (0b10110001, [[11, 6, 3], [3, 6, 0], [0, 6, 5], [0, 5, 9]]),
   (0b01101001, [[11, 8, 2], [2, 8, 0], [6, 10, 4], [4, 10, 9]]),
   (0b01110001, [[3, 7, 0], [0, 7, 10], [7, 6, 10], [0, 10, 9]]),
   (0b00111010, [[3, 2, 11], [8, 7, 0], [0, 7, 1], [1, 7, 5]]),
   (0b10100101, [[8, 0, 3], [4, 5, 9], [10, 2, 1], [11, 6, 7]]),
   (0b10110010, [[8, 11, 0], [0, 11, 5], [5, 11, 6], [0, 5, 1]])]

/-- The 3 explicitly specified inverse cases. -/
def INVERSE_CASES : List (ℕ × List (List ℕ)) :=
  [(255 - 0b00000101, [[3, 2, 8], [8, 2, 10], [8, 10, 1], [8, 1, 0]]),
   (255 - 0b01000011,
     [[6, 8, 3], [6, 9, 8], [6, 5, 9], [6, 3, 1], [6, 1, 10]]),
   (255 - 0b01001010,
     [[3, 11, 0], [0, 11, 6], [0, 6, 9], [9, 6, 5], [1, 10, 2]])]

/-- 90-degree rotation about the x-axis, as a corner permutation. -/
def ROTATE_1 : List ℕ := [1, 2, 3, 0, 5, 6, 7, 4]

/-- 90-degree rotation about the y-axis. -/
def ROTATE_2 : List ℕ := [3, 2, 6, 7, 0, 1, 5, 4]

/-- 90-degree rotation about the z-axis. -/
def ROTATE_3 : List ℕ := [1, 5, 6, 2, 0, 4, 7, 3]

/-- Mirror reflection across the yz-plane. -/
def REFLECT : List ℕ := [1, 0, 3, 2, 5, 4, 7, 6]

/-- marching_cubes_gen.bits_to_verts: the corner indices whose bit is set
(Python: 2**v & n > 0). -/
def bits_to_verts (n : ℕ) : List ℕ :=
  (List.range 8).filter (fun v => decide (0 < 2^v &&& n))

/-- marching_cubes_gen.verts_to_bits. -/
def verts_to_bits (vs : List ℕ) : ℕ := (vs.map (fun v => 2^v)).sum

/-- marching_cubes_gen.bits_apply. -/
def bits_apply (op : List ℕ) (n : ℕ) : ℕ :=
  verts_to_bits ((bits_to_verts n).map (fun v => op.getD v 0))

/-- The EDGES_BY_VERTSET lookup: the index of the edge with the given
unordered corner pair (Python raises KeyError when no such edge exists;
here the out-of-range index 12 results, which every in-range use
avoids). -/
def edges_by_vertset (a b : ℕ) : ℕ :=
  EDGES.findIdx (fun p =>
    decide ((p.1 = a ∧ p.2 = b) ∨ (p.1 = b ∧ p.2 = a)))

/-- marching_cubes_gen.faces_apply: push every triangle edge through a
corner permutation and back to an edge identifier. -/
def faces_apply (op : List ℕ) (faces : List (List ℕ)) : List (List ℕ) :=
  faces.map (fun face => face.map (fun e =>
    let p := EDGES.getD e (0, 0)
    edges_by_vertset (op.getD p.1 0) (op.getD p.2 0)))

/-- marching_cubes_gen.operations_apply. -/
def operations_apply (ops : List (List ℕ)) (faces : List (List ℕ)) :
    List (List ℕ) :=
  ops.foldl (fun fs op => faces_apply op fs) faces

/-- The OPERATIONS list of the generator: a triple rotation about x and
the three single operations. -/
def OPERATIONS : List (List (List ℕ)) :=
  [[ROTATE_1, ROTATE_1, ROTATE_1], [ROTATE_2], [ROTATE_3], [REFLECT]]

/-- Python dict assignment on an insertion-ordered association list:
update in place when the key exists, append otherwise. -/
def dictSet (d : List (ℕ × List (List ℕ))) (k : ℕ) (v : List (List ℕ)) :
    List (ℕ × List (List ℕ)) :=
  if d.any (fun p => p.1 = k) then
    d.map (fun p => if p.1 = k then (k, v) else p)
  else d ++ [(k, v)]

/-- The ALL_CASES table exactly as the generator's top-level code builds
it: base cases, then the inverse cases, then one pass in which, for each
operation set and each BASE case, the entry at bits_apply(op_set[-1], base)
is assigned operations_apply(op_set, faces). -/
def ALL_CASES : List (ℕ × List (List ℕ)) :=
  let withInv := INVERSE_CASES.foldl (fun d p => dictSet d p.1 p.2)
    BASE_CASES
  OPERATIONS.foldl (fun d op_set =>
    BASE_CASES.foldl (fun d2 bc =>
      dictSet d2 (bits_apply (op_set.getLast?.getD []) bc.1)
        (operations_apply op_set bc.2)) d) withInv

/-! ## Concrete solvers used by the witnesses -/

/-- A well-formed solver that puts every free coordinate far outside any
unit cell; it drives the fallback cascade down to the corner tier. -/
def lstsqFar : Lstsq := fun A _ => (List.replicate (A.headD []).length 1000, [])

/-- A well-formed solver that answers zero on every free coordinate. -/
def lstsqZero : Lstsq := fun A _ => (List.replicate (A.headD []).length 0, [])

end McDc

namespace McDc

theorem adapt_eq_some (s : Settings) (v0 v1 : ℚ)
    (h : decide (v1 > 0) ≠ decide (v0 > 0)) :
    adapt s v0 v1 = some (adaptVal s v0 v1) := by
  simp [adapt, h]

/-- Bounds of the interpolation value under opposite strict-positivity. -/
theorem adaptVal_bounds (s : Settings) (v0 v1 : ℚ)
    (h : decide (v1 > 0) ≠ decide (v0 > 0)) (hcs : 0 ≤ s.cellSize) :
    0 ≤ adaptVal s v0 v1 ∧ adaptVal s v0 v1 ≤ s.cellSize := by
  have hratio : s.adaptive = true →
      0 ≤ (0 - v0) / (v1 - v0) ∧ (0 - v0) / (v1 - v0) ≤ 1 := by
    intro _
    by_cases h1 : 0 < v1
    · have h0 : ¬ 0 < v0 := by
        intro h0
        simp [h1, h0] at h
      have h0' : v0 ≤ 0 := le_of_not_lt h0
      have hden : 0 < v1 - v0 := by linarith
      constructor
      · apply div_nonneg <;> linarith
      · rw [div_le_one hden]; linarith
    · have h0 : 0 < v0 := by
        by_contra h0
        simp [h1, h0] at h
      have h1' : v1 ≤ 0 := le_of_not_lt h1
      have hden : v1 - v0 < 0 := by linarith
      constructor
      · rw [div_nonneg_iff]
        right
        constructor <;> linarith
      · rw [div_le_one_iff]
        right; right
        constructor <;> linarith
  rcases hb : s.adaptive with _ | _
  · simp only [adaptVal, hb, Bool.false_eq_true, if_false]
    constructor <;> linarith
  · obtain ⟨hr0, hr1⟩ := hratio hb
    simp only [adaptVal, hb, if_true]
    constructor
    · exact mul_nonneg hr0 hcs
    · calc (0 - v0) / (v1 - v0) * s.cellSize ≤ 1 * s.cellSize :=
            mul_le_mul_of_nonneg_right hr1 hcs
        _ = s.cellSize := one_mul _

/-! ## Lemmas about pymin -/

theorem foldl_pymin_mem (xs : List (ℚ × List ℚ)) (x : ℚ × List ℚ) :
    xs.foldl (fun m a => if pyLt a m then a else m) x ∈ x :: xs := by
  induction xs generalizing x with
  | nil => simp
  | cons c t ih =>
      simp only [List.foldl_cons]
      rcases List.mem_cons.1 (ih (if pyLt c x then c else x)) with h | h
      · rw [h]
        by_cases hc : pyLt c x = true
        · simp [hc]
        · simp [hc]
      · exact List.mem_cons.2 (Or.inr (List.mem_cons.2 (Or.inr h)))

theorem pyLt_res_le {a b : ℚ × List ℚ} (h : pyLt a b = true) : a.1 ≤ b.1 := by
  unfold pyLt at h
  by_cases h1 : a.1 < b.1
  · exact le_of_lt h1
  · by_cases h2 : b.1 < a.1
    · simp [h1, h2] at h
    · exact le_of_not_lt h2

theorem pyLt_not_res_le {a b : ℚ × List ℚ} (h : pyLt a b = false) :
    b.1 ≤ a.1 := by
  unfold pyLt at h
  by_cases h1 : a.1 < b.1
  · simp [h1] at h
  · exact le_of_not_lt h1

theorem foldl_pymin_res_le (xs : List (ℚ × List ℚ)) (x : ℚ × List ℚ) :
    ∀ a ∈ x :: xs,
      (xs.foldl (fun m a => if pyLt a m then a else m) x).1 ≤ a.1 := by
  induction xs generalizing x with
  | nil =>
      intro a ha
      rcases List.mem_cons.1 ha with h | h
      · subst h; simp
      · simp at h
  | cons c t ih =>
      intro a ha
      simp only [List.foldl_cons]
      by_cases hc : pyLt c x = true
      · simp only [hc, if_true]
        rcases List.mem_cons.1 ha with h | h
        · subst h
          calc (t.foldl (fun m a => if pyLt a m then a else m) c).1 ≤ c.1 :=
                ih c c (List.mem_cons_self _ _)
            _ ≤ a.1 := pyLt_res_le hc
        · rcases List.mem_cons.1 h with h2 | h2
          · rw [h2]; exact ih c c (List.mem_cons_self _ _)
          · exact ih c a (List.mem_cons.2 (Or.inr h2))
      · simp only [Bool.not_eq_true] at hc
        simp only [hc, Bool.false_eq_true, if_false]
        rcases List.mem_cons.1 ha with h | h
        · rw [h]; exact ih x x (List.mem_cons_self _ _)
        · rcases List.mem_cons.1 h with h2 | h2
          · subst h2
            calc (t.foldl (fun m a => if pyLt a m then a else m) x).1 ≤ x.1 :=
                  ih x x (List.mem_cons_self _ _)
              _ ≤ a.1 := pyLt_not_res_le hc
          · exact ih x a (List.mem_cons.2 (Or.inr h2))

theorem pymin_mem {l : List (ℚ × List ℚ)} {m : ℚ × List ℚ}
    (h : pymin l = some m) : m ∈ l := by
  cases l with
  | nil => simp [pymin] at h
  | cons x xs =>
      simp only [pymin, Option.some.injEq] at h
      exact h ▸ foldl_pymin_mem xs x

theorem pymin_isSome {l : List (ℚ × List ℚ)} (h : l ≠ []) :
    ∃ m, pymin l = some m := by
  cases l with
  | nil => exact absurd rfl h
  | cons x xs => exact ⟨_, rfl⟩

theorem pymin_res_le {l : List (ℚ × List ℚ)} {m : ℚ × List ℚ}
    (h : pymin l = some m) : ∀ a ∈ l, m.1 ≤ a.1 := by
  cases l with
  | nil => simp [pymin] at h
  | cons x xs =>
      simp only [pymin, Option.some.injEq] at h
      intro a ha
      exact h ▸ foldl_pymin_res_le xs x a ha

/-! ## Lemmas about the 2-d solver -/

theorem clipQ_bounds (v lo hi : ℚ) (h : lo ≤ hi) :
    lo ≤ clipQ v lo hi ∧ clipQ v lo hi ≤ hi := by
  unfold clipQ
  constructor
  · exact le_min (le_max_right v lo) h
  · exact min_le_right _ _

theorem inside2_spec {s : Settings} {x y : ℚ} {r : ℚ × List ℚ}
    (h : inside2 s x y r = true) :
    x ≤ r.2.getD 0 0 ∧ r.2.getD 0 0 ≤ x + s.cellSize ∧
    y ≤ r.2.getD 1 0 ∧ r.2.getD 1 0 ≤ y + s.cellSize := by
  simp only [inside2, Bool.and_eq_true, decide_eq_true_eq] at h
  exact ⟨h.1.1.1, h.1.1.2, h.1.2, h.2⟩

theorem postClip2_bounds (s : Settings) (x y : ℚ) (m : ℚ × List ℚ)
    (hcs : 0 ≤ s.cellSize) (hin : inside2 s x y m = true) :
    x ≤ (postClip2 s x y m).1 ∧ (postClip2 s x y m).1 ≤ x + s.cellSize ∧
    y ≤ (postClip2 s x y m).2 ∧ (postClip2 s x y m).2 ≤ y + s.cellSize := by
  obtain ⟨h1, h2, h3, h4⟩ := inside2_spec hin
  unfold postClip2
  by_cases hc : s.clip = true
  · simp only [hc, if_true]
    obtain ⟨c1, c2⟩ := clipQ_bounds (m.2.getD 0 0) x (x + s.cellSize)
      (by linarith)
    obtain ⟨c3, c4⟩ := clipQ_bounds (m.2.getD 1 0) y (y + s.cellSize)
      (by linarith)
    exact ⟨c1, c2, c3, c4⟩
  · simp only [Bool.not_eq_true] at hc
    simp only [hc, Bool.false_eq_true, if_false]
    exact ⟨h1, h2, h3, h4⟩

theorem corner_inside2 (s : Settings) (x y : ℚ) (qef : QEF)
    (hcs : 0 ≤ s.cellSize) :
    ∀ c ∈ qef2dCorners s x y qef, inside2 s x y c = true := by
  intro c hc
  simp only [qef2dCorners, QEF.eval_with_pos, List.mem_cons,
    List.not_mem_nil, or_false] at hc
  rcases hc with rfl | rfl | rfl | rfl <;>
    simp only [inside2, List.getD_cons_zero, List.getD_cons_succ,
      Bool.and_eq_true, decide_eq_true_eq] <;>
    refine ⟨⟨⟨by linarith, by linarith⟩, by linarith⟩, by linarith⟩

/-- Core behaviour of solve_qef_2d: the returned point always exists (the
candidate list handed to min is never empty), and with BOUNDARY enabled it
lies inside the cell. -/
theorem solve2d_point_spec (s : Settings) (lstsq : Lstsq) (x y : ℚ)
    (ps ns : List (ℚ × ℚ)) (hcs : 0 ≤ s.cellSize) :
    ∃ v : ℚ × ℚ, (solve_qef_2d s lstsq x y ps ns).point = some v ∧
      (s.boundary = true →
        x ≤ v.1 ∧ v.1 ≤ x + s.cellSize ∧
        y ≤ v.2 ∧ v.2 ≤ y + s.cellSize) := by
  unfold solve_qef_2d
  by_cases hb : s.boundary = true
  · simp only [hb, if_true]
    by_cases hin : inside2 s x y ((qef2d s ps ns).solve lstsq) = true
    · simp only [hin, if_true, Option.map_some]
      exact ⟨_, rfl, fun _ =>
        postClip2_bounds s x y _ hcs hin⟩
    · simp only [Bool.not_eq_true] at hin
      simp only [hin, Bool.false_eq_true, if_false]
      by_cases ht : qef2dTier1 s lstsq x y (qef2d s ps ns) = []
      · simp only [ht, if_true]
        set rs := (qef2dCorners s x y (qef2d s ps ns)).filter
          (inside2 s x y) with hrs
        have hne : rs ≠ [] := by
          have hc0 : (qef2d s ps ns).eval_with_pos [x + 0, y + 0] ∈
              qef2dCorners s x y (qef2d s ps ns) := by
            unfold qef2dCorners
            exact List.mem_cons_self _ _
          have hmem : (qef2d s ps ns).eval_with_pos [x + 0, y + 0] ∈ rs := by
            rw [hrs]
            exact List.mem_filter.2
              ⟨hc0, corner_inside2 s x y (qef2d s ps ns) hcs _ hc0⟩
          intro hnil
          rw [hnil] at hmem
          exact List.not_mem_nil _ hmem
        obtain ⟨m, hm⟩ := pymin_isSome hne
        have hmm := pymin_mem hm
        have hmin : inside2 s x y m = true := (List.mem_filter.1 hmm).2
        simp only [hm, Option.map_some]
        exact ⟨_, rfl, fun _ => postClip2_bounds s x y m hcs hmin⟩
      · simp only [ht, if_false]
        obtain ⟨m, hm⟩ := pymin_isSome ht
        have hmm := pymin_mem hm
        have hmin : inside2 s x y m = true := by
          have := hmm
          unfold qef2dTier1 at this
          exact (List.mem_filter.1 this).2
        simp only [hm, Option.map_some]
        exact ⟨_, rfl, fun _ => postClip2_bounds s x y m hcs hmin⟩
  · simp only [Bool.not_eq_true] at hb
    simp only [hb, Bool.false_eq_true, if_false, Option.map_some]
    exact ⟨_, rfl, fun hcon => hcon.elim⟩

/-! ## Lemmas about the 3-d solver -/

theorem inside3_spec {s : Settings} {x y z : ℚ} {r : ℚ × List ℚ}
    (h : inside3 s x y z r = true) :
    x ≤ r.2.getD 0 0 ∧ r.2.getD 0 0 ≤ x + s.cellSize ∧
    y ≤ r.2.getD 1 0 ∧ r.2.getD 1 0 ≤ y + s.cellSize ∧
    z ≤ r.2.getD 2 0 ∧ r.2.getD 2 0 ≤ z + s.cellSize := by
  simp only [inside3, Bool.and_eq_true, decide_eq_true_eq] at h
  exact ⟨h.1.1.1.1.1, h.1.1.1.1.2, h.1.1.1.2, h.1.1.2, h.1.2, h.2⟩

theorem postClip3_bounds (s : Settings) (x y z : ℚ) (m : ℚ × List ℚ)
    (hcs : 0 ≤ s.cellSize) (hin : inside3 s x y z m = true) :
    x ≤ (postClip3 s x y z m).1 ∧ (postClip3 s x y z m).1 ≤ x + s.cellSize ∧
    y ≤ (postClip3 s x y z m).2.1 ∧
    (postClip3 s x y z m).2.1 ≤ y + s.cellSize ∧
    z ≤ (postClip3 s x y z m).2.2 ∧
    (postClip3 s x y z m).2.2 ≤ z + s.cellSize := by
  obtain ⟨h1, h2, h3, h4, h5, h6⟩ := inside3_spec hin
  unfold postClip3
  by_cases hc : s.clip = true
  · simp only [hc, if_true]
    obtain ⟨c1, c2⟩ := clipQ_bounds (m.2.getD 0 0) x (x + s.cellSize)
      (by linarith)
    obtain ⟨c3, c4⟩ := clipQ_bounds (m.2.getD 1 0) y (y + s.cellSize)
      (by linarith)
    obtain ⟨c5, c6⟩ := clipQ_bounds (m.2.getD 2 0) z (z + s.cellSize)
      (by linarith)
    exact ⟨c1, c2, c3, c4, c5, c6⟩
  · simp only [Bool.not_eq_true] at hc
    simp only [hc, Bool.false_eq_true, if_false]
    exact ⟨h1, h2, h3, h4, h5, h6⟩

theorem corner_inside3 (s : Settings) (x y z : ℚ) (qef : QEF)
    (hcs : 0 ≤ s.cellSize) :
    ∀ c ∈ qef3dCorners s x y z qef, inside3 s x y z c = true := by
  intro c hc
  simp only [qef3dCorners, QEF.eval_with_pos, List.mem_cons,
    List.not_mem_nil, or_false] at hc
  rcases hc with rfl | rfl | rfl | rfl | rfl | rfl | rfl | rfl <;>
    simp only [inside3, List.getD_cons_zero, List.getD_cons_succ,
      Bool.and_eq_true, decide_eq_true_eq] <;>
    refine ⟨⟨⟨⟨⟨by linarith, by linarith⟩, by linarith⟩, by linarith⟩,
      by linarith⟩, by linarith⟩

/-- Core behaviour of solve_qef_3d: the returned point always exists, and
with BOUNDARY enabled it lies inside the cell. -/
theorem solve3d_point_spec (s : Settings) (lstsq : Lstsq) (x y z : ℚ)
    (ps ns : List (ℚ × ℚ × ℚ)) (hcs : 0 ≤ s.cellSize) :
    ∃ v : ℚ × ℚ × ℚ, (solve_qef_3d s lstsq x y z ps ns).point = some v ∧
      (s.boundary = true →
        x ≤ v.1 ∧ v.1 ≤ x + s.cellSize ∧
        y ≤ v.2.1 ∧ v.2.1 ≤ y + s.cellSize ∧
        z ≤ v.2.2 ∧ v.2.2 ≤ z + s.cellSize) := by
  unfold solve_qef_3d
  by_cases hb : s.boundary = true
  · simp only [hb, if_true]
    by_cases hin : inside3 s x y z ((qef3d s ps ns).solve lstsq) = true
    · simp only [hin, if_true, Option.map_some]
      exact ⟨_, rfl, fun _ => postClip3_bounds s x y z _ hcs hin⟩
    · simp only [Bool.not_eq_true] at hin
      simp only [hin, Bool.false_eq_true, if_false]
      by_cases ht1 : qef3dTier1 s lstsq x y z (qef3d s ps ns) = []
      · simp only [ht1, if_true]
        by_cases ht2 : qef3dTier2 s lstsq x y z (qef3d s ps ns) = []
        · simp only [ht2, if_true]
          set rs := (qef3dCorners s x y z (qef3d s ps ns)).filter
            (inside3 s x y z) with hrs
          have hc0 : (qef3d s ps ns).eval_with_pos [x + 0, y + 0, z + 0] ∈
              qef3dCorners s x y z (qef3d s ps ns) := by
            unfold qef3dCorners
            exact List.mem_cons_self _ _
          have hne : rs ≠ [] := by
            have hmem : (qef3d s ps ns).eval_with_pos [x + 0, y + 0, z + 0]
                ∈ rs := by
              rw [hrs]
              exact List.mem_filter.2
                ⟨hc0, corner_inside3 s x y z (qef3d s ps ns) hcs _ hc0⟩
            intro hnil
            rw [hnil] at hmem
            exact List.not_mem_nil _ hmem
          obtain ⟨m, hm⟩ := pymin_isSome hne
          have hmm := pymin_mem hm
          have hmin : inside3 s x y z m = true := (List.mem_filter.1 hmm).2
          simp only [hm, Option.map_some]
          exact ⟨_, rfl, fun _ => postClip3_bounds s x y z m hcs hmin⟩
        · simp only [ht2, if_false]
          obtain ⟨m, hm⟩ := pymin_isSome ht2
          have hmm := pymin_mem hm
          have hmin : inside3 s x y z m = true := by
            have := hmm
            unfold qef3dTier2 at this
            exact (List.mem_filter.1 this).2
          simp only [hm, Option.map_some]
          exact ⟨_, rfl, fun _ => postClip3_bounds s x y z m hcs hmin⟩
      · simp only [ht1, if_false]
        obtain ⟨m, hm⟩ := pymin_isSome ht1
        have hmm := pymin_mem hm
        have hmin : inside3 s x y z m = true := by
          have := hmm
          unfold qef3dTier1 at this
          exact (List.mem_filter.1 this).2
        simp only [hm, Option.map_some]
        exact ⟨_, rfl, fun _ => postClip3_bounds s x y z m hcs hmin⟩
  · simp only [Bool.not_eq_true] at hb
    simp only [hb, Bool.false_eq_true, if_false, Option.map_some]
    exact ⟨_, rfl, fun hcon => hcon.elim⟩

/-! ## Claim C1 -/

/-- C1: With BOUNDARY enabled (for any setting of BIAS and CLIP, and any
least-squares solver output), solve_qef_2d returns a point inside
[x, x+CELL_SIZE] x [y, y+CELL_SIZE], and solve_qef_3d returns a point
inside the corresponding cube, for every non-empty paired input set of
crossing positions and normals. -/
theorem claim_C1 (s : Settings) (lstsq : Lstsq) (x y X Y Z : ℚ)
    (ps2 ns2 : List (ℚ × ℚ)) (ps3 ns3 : List (ℚ × ℚ × ℚ))
    (hb : s.boundary = true) (hcs : 0 ≤ s.cellSize)
    (_hne2 : ps2 ≠ [] ∧ ns2 ≠ [] ∧ ps2.length = ns2.length)
    (_hne3 : ps3 ≠ [] ∧ ns3 ≠ [] ∧ ps3.length = ns3.length) :
    (∃ v : ℚ × ℚ, (solve_qef_2d s lstsq x y ps2 ns2).point = some v ∧
      x ≤ v.1 ∧ v.1 ≤ x + s.cellSize ∧
      y ≤ v.2 ∧ v.2 ≤ y + s.cellSize) ∧
    (∃ w : ℚ × ℚ × ℚ,
      (solve_qef_3d s lstsq X Y Z ps3 ns3).point = some w ∧
      X ≤ w.1 ∧ w.1 ≤ X + s.cellSize ∧
      Y ≤ w.2.1 ∧ w.2.1 ≤ Y + s.cellSize ∧
      Z ≤ w.2.2 ∧ w.2.2 ≤ Z + s.cellSize) := by
  constructor
  · obtain ⟨v, hv, hbd⟩ := solve2d_point_spec s lstsq x y ps2 ns2 hcs
    exact ⟨v, hv, (hbd hb).1, (hbd hb).2.1, (hbd hb).2.2.1, (hbd hb).2.2.2⟩
  · obtain ⟨w, hw, hbd⟩ := solve3d_point_spec s lstsq X Y Z ps3 ns3 hcs
    obtain ⟨b1, b2, b3, b4, b5, b6⟩ := hbd hb
    exact ⟨w, hw, b1, b2, b3, b4, b5, b6⟩

/-- Witness for C1 at a concrete input (a solver whose raw answer lies far
outside the cell, so the fallback cascade is exercised). -/
theorem claim_C1_witness :
    defaultSettings.boundary = true ∧ (0:ℚ) ≤ defaultSettings.cellSize ∧
    (((∃ v : ℚ × ℚ,
      (solve_qef_2d defaultSettings lstsqFar 0 0
        [(1/2, 1/2)] [(1, 0)]).point = some v ∧
      0 ≤ v.1 ∧ v.1 ≤ 0 + defaultSettings.cellSize ∧
      0 ≤ v.2 ∧ v.2 ≤ 0 + defaultSettings.cellSize) ∧
    (∃ w : ℚ × ℚ × ℚ,
      (solve_qef_3d defaultSettings lstsqFar 0 0 0
        [(1/2, 1/2, 1/2)] [(1, 0, 0)]).point = some w ∧
      0 ≤ w.1 ∧ w.1 ≤ 0 + defaultSettings.cellSize ∧
      0 ≤ w.2.1 ∧ w.2.1 ≤ 0 + defaultSettings.cellSize ∧
      0 ≤ w.2.2 ∧ w.2.2 ≤ 0 + defaultSettings.cellSize))) :=
  ⟨rfl, by norm_num [defaultSettings],
    claim_C1 defaultSettings lstsqFar 0 0 0 0 0
      [(1/2, 1/2)] [(1, 0)] [(1/2, 1/2, 1/2)] [(1, 0, 0)]
      rfl (by norm_num [defaultSettings])
      ⟨by simp, by simp, rfl⟩ ⟨by simp, by simp, rfl⟩⟩

/-! ## Claim C5 -/

theorem changes2d_length (s : Settings) (f : ℚ → ℚ → ℚ) (x y : ℚ) :
    (changes2d s f x y).length = signChangeCount2d s f x y := by
  simp only [changes2d, signChangeCount2d, List.length_append,
    apply_ite List.length, List.length_singleton, List.length_nil]
  ring

theorem changes3d_length (s : Settings) (f : ℚ → ℚ → ℚ → ℚ) (x y z : ℚ) :
    (changes3d s f x y z).length = signChangeCount3d s f x y z := by
  simp only [changes3d, signChangeCount3d, List.length_append,
    apply_ite List.length, List.length_singleton, List.length_nil]
  ring

/-- C5: under the shipped configuration (ADAPTIVE enabled, nonnegative
cell size), the per-cell vertex finders return none exactly when the cell
has fewer than 2 sign-changing edges, and a vertex position otherwise. -/
theorem claim_C5 (s : Settings) (lstsq : Lstsq)
    (f2 : ℚ → ℚ → ℚ) (fn2 : ℚ → ℚ → ℚ × ℚ) (x y : ℚ)
    (f3 : ℚ → ℚ → ℚ → ℚ) (fn3 : ℚ → ℚ → ℚ → ℚ × ℚ × ℚ) (X Y Z : ℚ)
    (had : s.adaptive = true) (hcs : 0 ≤ s.cellSize) :
    ((dual_contour_2d_find_best_vertex s lstsq f2 fn2 x y = none) ↔
      signChangeCount2d s f2 x y < 2) ∧
    ((dual_contour_3d_find_best_vertex s lstsq f3 fn3 X Y Z = none) ↔
      signChangeCount3d s f3 X Y Z < 2) := by
  constructor
  · unfold dual_contour_2d_find_best_vertex
    simp only [had, Bool.true_eq_false, if_false]
    by_cases hlen : (changes2d s f2 x y).length ≤ 1
    · have : signChangeCount2d s f2 x y < 2 := by
        rw [← changes2d_length]
        omega
      simp [hlen, this]
    · have hge : ¬ signChangeCount2d s f2 x y < 2 := by
        rw [← changes2d_length]
        omega
      simp only [hlen, if_false, hge, iff_false]
      obtain ⟨v, hv, _⟩ := solve2d_point_spec s lstsq x y (changes2d s f2 x y)
        ((changes2d s f2 x y).map (fun v => fn2 v.1 v.2)) hcs
      rw [hv]
      simp
  · unfold dual_contour_3d_find_best_vertex
    simp only [had, Bool.true_eq_false, if_false]
    by_cases hlen : (changes3d s f3 X Y Z).length ≤ 1
    · have : signChangeCount3d s f3 X Y Z < 2 := by
        rw [← changes3d_length]
        omega
      simp [hlen, this]
    · have hge : ¬ signChangeCount3d s f3 X Y Z < 2 := by
        rw [← changes3d_length]
        omega
      simp only [hlen, if_false, hge, iff_false]
      obtain ⟨v, hv, _⟩ := solve3d_point_spec s lstsq X Y Z
        (changes3d s f3 X Y Z)
        ((changes3d s f3 X Y Z).map (fun v => fn3 v.1 v.2.1 v.2.2)) hcs
      rw [hv]
      simp

/-! ## Claim C7 -/

theorem clipQ_eq_self (v lo hi : ℚ) (h1 : lo ≤ v) (h2 : v ≤ hi) :
    clipQ v lo hi = v := by
  unfold clipQ
  rw [max_eq_left h1, min_eq_left h2]

theorem postClip2_id (s : Settings) (x y : ℚ) (m : ℚ × List ℚ)
    (hin : inside2 s x y m = true) :
    postClip2 s x y m = (m.2.getD 0 0, m.2.getD 1 0) := by
  obtain ⟨h1, h2, h3, h4⟩ := inside2_spec hin
  unfold postClip2
  by_cases hc : s.clip = true
  · simp only [hc, if_true, clipQ_eq_self _ _ _ h1 h2, clipQ_eq_self _ _ _ h3 h4]
  · simp only [Bool.not_eq_true] at hc
    simp only [hc, Bool.false_eq_true, if_false]

theorem postClip3_id (s : Settings) (x y z : ℚ) (m : ℚ × List ℚ)
    (hin : inside3 s x y z m = true) :
    postClip3 s x y z m = (m.2.getD 0 0, m.2.getD 1 0, m.2.getD 2 0) := by
  obtain ⟨h1, h2, h3, h4, h5, h6⟩ := inside3_spec hin
  unfold postClip3
  by_cases hc : s.clip = true
  · simp only [hc, if_true, clipQ_eq_self _ _ _ h1 h2,
      clipQ_eq_self _ _ _ h3 h4, clipQ_eq_self _ _ _ h5 h6]
  · simp only [Bool.not_eq_true] at hc
    simp only [hc, Bool.false_eq_true, if_false]

/-- C7: whenever the BOUNDARY cascade of solve_qef_2d / solve_qef_3d
reaches its final tier, no corner is removed by the inclusive inside check
(so the impossible no-corner situation cannot arise), and the function
returns normally with the corner of minimum residual. -/
theorem claim_C7 (s : Settings) (lstsq : Lstsq) (x y : ℚ)
    (ps2 ns2 : List (ℚ × ℚ)) (X Y Z : ℚ) (ps3 ns3 : List (ℚ × ℚ × ℚ))
    (hb : s.boundary = true) (hcs : 0 ≤ s.cellSize)
    (hout2 : inside2 s x y ((qef2d s ps2 ns2).solve lstsq) = false)
    (htier2 : qef2dTier1 s lstsq x y (qef2d s ps2 ns2) = [])
    (hout3 : inside3 s X Y Z ((qef3d s ps3 ns3).solve lstsq) = false)
    (h3t1 : qef3dTier1 s lstsq X Y Z (qef3d s ps3 ns3) = [])
    (h3t2 : qef3dTier2 s lstsq X Y Z (qef3d s ps3 ns3) = []) :
    (((qef2dCorners s x y (qef2d s ps2 ns2)).filter (inside2 s x y) =
        qef2dCorners s x y (qef2d s ps2 ns2)) ∧
      ∃ m : ℚ × List ℚ, m ∈ qef2dCorners s x y (qef2d s ps2 ns2) ∧
        (∀ c ∈ qef2dCorners s x y (qef2d s ps2 ns2), m.1 ≤ c.1) ∧
        (solve_qef_2d s lstsq x y ps2 ns2).point =
          some (m.2.getD 0 0, m.2.getD 1 0)) ∧
    (((qef3dCorners s X Y Z (qef3d s ps3 ns3)).filter (inside3 s X Y Z) =
        qef3dCorners s X Y Z (qef3d s ps3 ns3)) ∧
      ∃ m : ℚ × List ℚ, m ∈ qef3dCorners s X Y Z (qef3d s ps3 ns3) ∧
        (∀ c ∈ qef3dCorners s X Y Z (qef3d s ps3 ns3), m.1 ≤ c.1) ∧
        (solve_qef_3d s lstsq X Y Z ps3 ns3).point =
          some (m.2.getD 0 0, m.2.getD 1 0, m.2.getD 2 0)) := by
  constructor
  · have hfil : (qef2dCorners s x y (qef2d s ps2 ns2)).filter (inside2 s x y)
        = qef2dCorners s x y (qef2d s ps2 ns2) :=
      List.filter_eq_self.2 (corner_inside2 s x y _ hcs)
    refine ⟨hfil, ?_⟩
    have hne : qef2dCorners s x y (qef2d s ps2 ns2) ≠ [] := by
      unfold qef2dCorners
      simp
    obtain ⟨m, hm⟩ := pymin_isSome hne
    have hmem := pymin_mem hm
    refine ⟨m, hmem, pymin_res_le hm, ?_⟩
    unfold solve_qef_2d
    simp only [hb, if_true, hout2, Bool.false_eq_true, if_false, htier2,
      hfil, hm, Option.map_some]
    rw [show Option.map (postClip2 s x y) (some m) =
          some (postClip2 s x y m) from rfl,
        postClip2_id s x y m (corner_inside2 s x y _ hcs m hmem)]
  · have hfil : (qef3dCorners s X Y Z (qef3d s ps3 ns3)).filter
        (inside3 s X Y Z) = qef3dCorners s X Y Z (qef3d s ps3 ns3) :=
      List.filter_eq_self.2 (corner_inside3 s X Y Z _ hcs)
    refine ⟨hfil, ?_⟩
    have hne : qef3dCorners s X Y Z (qef3d s ps3 ns3) ≠ [] := by
      unfold qef3dCorners
      simp
    obtain ⟨m, hm⟩ := pymin_isSome hne
    have hmem := pymin_mem hm
    refine ⟨m, hmem, pymin_res_le hm, ?_⟩
    unfold solve_qef_3d
    simp only [hb, if_true, hout3, Bool.false_eq_true, if_false, h3t1,
      h3t2, hfil, hm, Option.map_some]
    rw [show Option.map (postClip3 s X Y Z) (some m) =
          some (postClip3 s X Y Z m) from rfl,
        postClip3_id s X Y Z m (corner_inside3 s X Y Z _ hcs m hmem)]

/-- Witness for C7 at a concrete input whose solver answer (1000 on every
free axis) is far outside the unit cell at the origin, so that every tier
before the corners comes back empty. -/
theorem claim_C7_witness :
    defaultSettings.boundary = true ∧ (0:ℚ) ≤ defaultSettings.cellSize ∧
    inside2 defaultSettings 0 0
      ((qef2d defaultSettings [(0, 0)] [(1, 0)]).solve lstsqFar) = false ∧
    qef2dTier1 defaultSettings lstsqFar 0 0
      (qef2d defaultSettings [(0, 0)] [(1, 0)]) = [] ∧
    ((((qef2dCorners defaultSettings 0 0
          (qef2d defaultSettings [(0, 0)] [(1, 0)])).filter
          (inside2 defaultSettings 0 0) =
        qef2dCorners defaultSettings 0 0
          (qef2d defaultSettings [(0, 0)] [(1, 0)])) ∧
      ∃ m : ℚ × List ℚ,
        m ∈ qef2dCorners defaultSettings 0 0
          (qef2d defaultSettings [(0, 0)] [(1, 0)]) ∧
        (∀ c ∈ qef2dCorners defaultSettings 0 0
          (qef2d defaultSettings [(0, 0)] [(1, 0)]), m.1 ≤ c.1) ∧
        (solve_qef_2d defaultSettings lstsqFar 0 0 [(0, 0)] [(1, 0)]).point =
          some (m.2.getD 0 0, m.2.getD 1 0)) ∧
    (((qef3dCorners defaultSettings 0 0 0
          (qef3d defaultSettings [(0, 0, 0)] [(1, 0, 0)])).filter
          (inside3 defaultSettings 0 0 0) =
        qef3dCorners defaultSettings 0 0 0
          (qef3d defaultSettings [(0, 0, 0)] [(1, 0, 0)])) ∧
      ∃ m : ℚ × List ℚ,
        m ∈ qef3dCorners defaultSettings 0 0 0
          (qef3d defaultSettings [(0, 0, 0)] [(1, 0, 0)]) ∧
        (∀ c ∈ qef3dCorners defaultSettings 0 0 0
          (qef3d defaultSettings [(0, 0, 0)] [(1, 0, 0)]), m.1 ≤ c.1) ∧
        (solve_qef_3d defaultSettings lstsqFar 0 0 0
          [(0, 0, 0)] [(1, 0, 0)]).point =
          some (m.2.getD 0 0, m.2.getD 1 0, m.2.getD 2 0))) :=
  ⟨rfl, by norm_num [defaultSettings],
    by norm_num [inside2, qef2d, QEF.solve, QEF.make_2d, biasPositions2,
      biasNormals2, defaultSettings, lstsqFar, insertFixed, mean2,
      QEF.evaluate, dotRow],
    by norm_num [qef2dTier1, QEF.fix_axis, inside2, qef2d, QEF.solve,
      QEF.make_2d, biasPositions2, biasNormals2, defaultSettings, lstsqFar,
      insertFixed, mean2, QEF.evaluate, dotRow],
    claim_C7 defaultSettings lstsqFar 0 0 [(0, 0)] [(1, 0)] 0 0 0
      [(0, 0, 0)] [(1, 0, 0)] rfl (by norm_num [defaultSettings])
      (by norm_num [inside2, qef2d, QEF.solve, QEF.make_2d, biasPositions2,
        biasNormals2, defaultSettings, lstsqFar, insertFixed, mean2,
        QEF.evaluate, dotRow])
      (by norm_num [qef2dTier1, QEF.fix_axis, inside2, qef2d, QEF.solve,
        QEF.make_2d, biasPositions2, biasNormals2, defaultSettings, lstsqFar,
        insertFixed, mean2, QEF.evaluate, dotRow])
      (by norm_num [inside3, qef3d, QEF.solve, QEF.make_3d, biasPositions3,
        biasNormals3, defaultSettings, lstsqFar, insertFixed, mean3,
        QEF.evaluate, dotRow])
      (by norm_num [qef3dTier1, QEF.fix_axis, inside3, qef3d, QEF.solve,
        QEF.make_3d, biasPositions3, biasNormals3, defaultSettings, lstsqFar,
        insertFixed, mean3, QEF.evaluate, dotRow])
      (by norm_num [qef3dTier2, QEF.fix_axis, inside3, qef3d, QEF.solve,
        QEF.make_3d, biasPositions3, biasNormals3, defaultSettings, lstsqFar,
        insertFixed, mean3, QEF.evaluate, dotRow])⟩

/-! ## Claim C8 -/

theorem zipWithSub_getD (i : ℕ) (v : ℚ) :
    ∀ (b : List ℚ) (A : List (List ℚ)) (k : ℕ),
      k < b.length → k < A.length →
      (List.zipWith (fun bi row => bi - row.getD i 0 * v) b A).getD k 0 =
        b.getD k 0 - ((A.getD k []).getD i 0) * v := by
  intro b
  induction b with
  | nil => intro A k hk _; simp at hk
  | cons bh bt ih =>
      intro A k hk hA
      cases A with
      | nil => simp at hA
      | cons Ah At =>
          cases k with
          | zero => simp
          | succ k =>
              simp only [List.zipWith_cons_cons, List.getD_cons_succ]
              exact ih At k (by simpa using hk) (by simpa using hA)

theorem map_eraseIdx_getD (i : ℕ) :
    ∀ (A : List (List ℚ)) (k : ℕ),
      (A.map (fun row => row.eraseIdx i)).getD k [] =
        (A.getD k []).eraseIdx i := by
  intro A
  induction A with
  | nil =>
      intro k
      simp [List.getD]
  | cons Ah At ih =>
      intro k
      cases k with
      | zero => simp
      | succ k =>
          simp only [List.map_cons, List.getD_cons_succ]
          exact ih k

theorem set_getD_self :
    ∀ (fs : List (Option ℚ)) (i : ℕ) (v : Option ℚ), i < fs.length →
      (fs.set i v).getD i none = v := by
  intro fs
  induction fs with
  | nil => intro i v hi; simp at hi
  | cons fh ft ih =>
      intro i v hi
      cases i with
      | zero => simp
      | succ i =>
          simp only [List.set_cons_succ, List.getD_cons_succ]
          exact ih i v (by simpa using hi)

theorem set_getD_ne :
    ∀ (fs : List (Option ℚ)) (i j : ℕ) (v : Option ℚ), j ≠ i →
      (fs.set i v).getD j none = fs.getD j none := by
  intro fs
  induction fs with
  | nil => intro i j v _; simp
  | cons fh ft ih =>
      intro i j v hne
      cases i with
      | zero =>
          cases j with
          | zero => exact absurd rfl hne
          | succ j => simp
      | succ i =>
          cases j with
          | zero => simp
          | succ j =>
              simp only [List.set_cons_succ, List.getD_cons_succ]
              exact ih i j v (by omega)

theorem insertFixed_getD_fixed :
    ∀ (fs : List (Option ℚ)) (rs : List ℚ) (j : ℕ) (w : ℚ),
      fs.getD j none = some w → (insertFixed fs rs).getD j 0 = w := by
  intro fs
  induction fs with
  | nil =>
      intro rs j w hj
      simp [List.getD] at hj
  | cons fh ft ih =>
      intro rs j w hj
      cases fh with
      | some v =>
          cases j with
          | zero =>
              simp only [List.getD_cons_zero] at hj
              simp only [insertFixed, List.getD_cons_zero]
              exact Option.some.inj hj
          | succ j =>
              simp only [List.getD_cons_succ] at hj
              simp only [insertFixed, List.getD_cons_succ]
              exact ih rs j w hj
      | none =>
          cases j with
          | zero => simp [List.getD_cons_zero] at hj
          | succ j =>
              simp only [List.getD_cons_succ] at hj
              simp only [insertFixed, List.getD_cons_succ]
              exact ih rs.tail j w hj

theorem selectFree_cons_some (v a : ℚ) (fs : List (Option ℚ))
    (pos : List ℚ) :
    selectFree (some v :: fs) (a :: pos) = selectFree fs pos := by
  simp [selectFree]

theorem selectFree_cons_none (a : ℚ) (fs : List (Option ℚ))
    (pos : List ℚ) :
    selectFree (none :: fs) (a :: pos) = a :: selectFree fs pos := by
  simp [selectFree]

theorem insertFixed_selectFree :
    ∀ (fs : List (Option ℚ)) (rs : List ℚ), rs.length = countFree fs →
      selectFree fs (insertFixed fs rs) = rs := by
  intro fs
  induction fs with
  | nil =>
      intro rs hlen
      simp only [countFree, List.filter_nil, List.length_nil] at hlen
      rw [List.length_eq_zero] at hlen
      subst hlen
      rfl
  | cons fh ft ih =>
      intro rs hlen
      cases fh with
      | some v =>
          have hc : countFree (some v :: ft) = countFree ft := by
            simp [countFree]
          rw [hc] at hlen
          rw [show insertFixed (some v :: ft) rs = v :: insertFixed ft rs
            from rfl]
          rw [selectFree_cons_some]
          exact ih rs hlen
      | none =>
          have hc : countFree (none :: ft) = countFree ft + 1 := by
            simp [countFree, Nat.add_comm]
          rw [hc] at hlen
          cases rs with
          | nil => simp at hlen
          | cons r rt =>
              simp only [List.length_cons, Nat.succ.injEq] at hlen
              rw [show insertFixed (none :: ft) (r :: rt) =
                r :: insertFixed ft rt from rfl]
              rw [selectFree_cons_none]
              rw [ih rt hlen]

/-- C8: fix_axis produces a new QEF whose b is the old b minus value times
the deleted column, whose rows each lose exactly their i-th entry, and
whose fixed record carries value at slot i and is untouched elsewhere
(the receiver itself is a pure value and stays unchanged); solve reinserts
every recorded fixed value at its slot and passes the solver's solution
through to the free slots in order, so a single fix_axis(i, value) on a
freshly built 2-d QEF yields a position whose coordinate i is value. -/
theorem claim_C8 (q : QEF) (i : ℕ) (v : ℚ)
    (hi : i < q.fixed_values.length)
    (_hfree : q.fixed_values.getD i none = none) :
    (∀ k, k < q.b.length → k < q.A.length →
      (q.fix_axis i v).b.getD k 0 =
        q.b.getD k 0 - ((q.A.getD k []).getD i 0) * v) ∧
    (∀ k, (q.fix_axis i v).A.getD k [] = (q.A.getD k []).eraseIdx i) ∧
    ((q.fix_axis i v).fixed_values.getD i none = some v) ∧
    (∀ j, j ≠ i → (q.fix_axis i v).fixed_values.getD j none =
      q.fixed_values.getD j none) ∧
    (∀ lstsq : Lstsq, ∀ j w, q.fixed_values.getD j none = some w →
      ((q.solve lstsq).2).getD j 0 = w) ∧
    (∀ lstsq : Lstsq,
      (lstsq q.A q.b).1.length = countFree q.fixed_values →
      selectFree q.fixed_values ((q.solve lstsq).2) = (lstsq q.A q.b).1) ∧
    (∀ lstsq : Lstsq, ∀ ps ns : List (ℚ × ℚ), i < 2 →
      ((((QEF.make_2d ps ns).fix_axis i v).solve lstsq).2).getD i 0 = v) := by
  refine ⟨?_, ?_, ?_, ?_, ?_, ?_, ?_⟩
  · intro k hk hA
    exact zipWithSub_getD i v q.b q.A k hk hA
  · intro k
    exact map_eraseIdx_getD i q.A k
  · exact set_getD_self q.fixed_values i (some v) hi
  · intro j hj
    exact set_getD_ne q.fixed_values i j (some v) hj
  · intro lstsq j w hj
    exact insertFixed_getD_fixed q.fixed_values (lstsq q.A q.b).1 j w hj
  · intro lstsq hlen
    exact insertFixed_selectFree q.fixed_values (lstsq q.A q.b).1 hlen
  · intro lstsq ps ns hi2
    apply insertFixed_getD_fixed
    show (([none, none] : List (Option ℚ)).set i (some v)).getD i none =
      some v
    apply set_getD_self
    simpa using hi2

/-- Witness for C8 on a concrete one-constraint 2-d QEF, fixing axis 0. -/
theorem claim_C8_witness :
    (0 < (QEF.make_2d [(0, 0)] [(1, 0)]).fixed_values.length ∧
      (QEF.make_2d [(0, 0)] [(1, 0)]).fixed_values.getD 0 none = none) ∧
    (((QEF.make_2d [(0, 0)] [(1, 0)]).fix_axis 0 (1/2)).fixed_values.getD 0
        none = some (1/2) ∧
      ((((QEF.make_2d [(0, 0)] [(1, 0)]).fix_axis 0 (1/2)).solve
        lstsqZero).2).getD 0 0 = 1/2) := by
  have h := claim_C8 (QEF.make_2d [(0, 0)] [(1, 0)]) 0 (1/2)
    (by simp [QEF.make_2d]) (by simp [QEF.make_2d])
  exact ⟨⟨by simp [QEF.make_2d], by simp [QEF.make_2d]⟩,
    h.2.2.1, h.2.2.2.2.2.2 lstsqZero [(0, 0)] [(1, 0)] (by omega)⟩

/-! ## Claim C2 -/

set_option maxRecDepth 10000 in
/-- C2 evidence: the generator's single expansion pass leaves ALL_CASES
with only 54 keys, far short of the 256 entries its own module docstring
promises (the hardcoded table it claims to regenerate has 256); bitmask 4
(only corner 2 solid) never receives an entry; and two different
derivations of bitmask 2 produce different triangle lists, which the code
silently overwrites instead of asserting consistency. -/
theorem claim_C2 :
    (ALL_CASES.map Prod.fst).length = 54 ∧
    ALL_CASES.lookup 4 = none ∧
    cases.length = 256 ∧
    bits_apply ROTATE_1 1 = bits_apply ROTATE_3 1 ∧
    operations_apply [ROTATE_1, ROTATE_1, ROTATE_1] [[8, 0, 3]] ≠
      operations_apply [ROTATE_3] [[8, 0, 3]] := by
  refine ⟨by decide, by decide, by decide, by decide, by decide⟩

/-! ## Claim C3 -/

set_option maxRecDepth 100000 in
/-- Every bitmask's positive-face segments (in neighbour edge ids) depend
only on the 4-bit pattern of its face corners; checked over the whole
table. -/
theorem posSegs_factor :
    ∀ d < 3, ∀ m < 256, posSegs d m = canon d (faceKeyPos d m) := by decide

set_option maxRecDepth 100000 in
/-- Every bitmask's negative-face segments agree with the canonical face
triangulation of its face pattern; checked over the whole table. -/
theorem negSegs_factor :
    ∀ d < 3, ∀ m < 256, negSegs d m = canon d (faceKeyNeg d m) := by decide

/-- Index-aligned bit agreement gives equal 4-bit face keys. -/
theorem faceKey_eq (d mA mB : ℕ)
    (h : ∀ i < 4, Nat.testBit mA ((posCorners d).getD i 0) =
      Nat.testBit mB ((negCorners d).getD i 0)) :
    faceKeyPos d mA = faceKeyNeg d mB := by
  unfold faceKeyPos faceKeyNeg
  rw [h 0 (by norm_num), h 1 (by norm_num), h 2 (by norm_num),
    h 3 (by norm_num)]

/-- C3: for every pair of bitmasks that agree on the four corners of a
shared face (under the corner correspondence of two face-adjacent cubes,
in any of the three axis directions), the segments the two hardcoded
triangulations induce on that shared face are identical, so adjacent
cells stitch without cracks. -/
theorem claim_C3 (d mA mB : ℕ) (hd : d < 3) (hA : mA < 256) (hB : mB < 256)
    (h : ∀ i < 4, Nat.testBit mA ((posCorners d).getD i 0) =
      Nat.testBit mB ((negCorners d).getD i 0)) :
    posSegs d mA = negSegs d mB := by
  rw [posSegs_factor d hd mA hA, negSegs_factor d hd mB hB,
    faceKey_eq d mA mB h]

set_option maxRecDepth 100000 in
/-- Witness for C3: cube with only corner 1 solid next (in +x) to a cube
with only corner 0 solid; the shared-face segments coincide. -/
theorem claim_C3_witness :
    (∀ i < 4, Nat.testBit 2 ((posCorners 0).getD i 0) =
      Nat.testBit 1 ((negCorners 0).getD i 0)) ∧
    posSegs 0 2 = negSegs 0 1 :=
  ⟨by decide, claim_C3 0 2 1 (by norm_num) (by norm_num) (by norm_num)
    (by decide)⟩

/-! ## Claim C4 -/

set_option maxRecDepth 40000 in
/-- C4: in the hardcoded 256-entry table, every edge identifier of every
triangle joins a solid corner to a non-solid corner of its bitmask, and
the all-empty and all-solid bitmasks get empty triangle lists. -/
theorem claim_C4 :
    (∀ m : Fin 256, ∀ tri ∈ cases.getD m [], ∀ e ∈ tri,
      Nat.testBit m ((EDGES.getD e (0, 0)).1) ≠
        Nat.testBit m ((EDGES.getD e (0, 0)).2)) ∧
    cases.getD 0 [] = [] ∧ cases.getD 255 [] = [] := by
  refine ⟨by decide, by decide, by decide⟩

set_option maxRecDepth 10000 in
/-- Witness for C4 at bitmask 1, its only triangle, and edge 8 = (0, 4):
corner 0 is solid, corner 4 is not. -/
theorem claim_C4_witness :
    [8, 0, 3] ∈ cases.getD (((1 : Fin 256)) : ℕ) [] ∧
    (8 : ℕ) ∈ ([8, 0, 3] : List ℕ) ∧
    Nat.testBit (((1 : Fin 256)) : ℕ) ((EDGES.getD 8 (0, 0)).1) ≠
      Nat.testBit (((1 : Fin 256)) : ℕ) ((EDGES.getD 8 (0, 0)).2) :=
  ⟨by decide, by decide, claim_C4.1 1 [8, 0, 3] (by decide) 8 (by decide)⟩

/-! ## Claim C6 -/

theorem split_edge_head {α : Type} [DecidableEq α] (v1 v2 : ℚ × ℚ)
    (p1 p2 : α) :
    ∃ w rest, split_edge v1 v2 p1 p2 =
      { v1 := v1, v2 := w, prop := p1 } :: rest := by
  unfold split_edge
  by_cases h : p1 = p2
  · exact ⟨v2, [], by simp [h]⟩
  · exact ⟨((v1.1 + v2.1) / 2, (v1.2 + v2.2) / 2),
      [{ v1 := ((v1.1 + v2.1) / 2, (v1.2 + v2.2) / 2), v2 := v2,
         prop := p2 }], by simp [h]⟩

/-- C6 as amended: at an interpolated offset of exactly 0.5 the property
selector of marching_cubes_2d_single_cell awards the FIRST endpoint's
property (the first argument of the adapt call), not the second's; shown
generally for the selector every branch inlines, and through the whole
function for a case-14 cell whose bottom edge ties. -/
theorem claim_C6 {α : Type} [DecidableEq α]
    (f : ℚ → ℚ → ℚ) (fp : ℚ → ℚ → α) (x y : ℚ)
    (h00 : ¬ f x y > 0) (h01 : f x (y + mcpCellSize) > 0)
    (h10 : f (x + mcpCellSize) y > 0)
    (h11 : f (x + mcpCellSize) (y + mcpCellSize) > 0)
    (htie : adaptProp (f x y) (f (x + mcpCellSize) y) = 1/2) :
    (∀ p q : α, pickProp (1/2 : ℚ) p q = p) ∧
    (∃ w rest, marching_cubes_2d_single_cell f fp x y =
      { v1 := (x + 1/2, y), v2 := w, prop := fp x y } :: rest) := by
  constructor
  · intro p q
    simp [pickProp]
  · unfold marching_cubes_2d_single_cell
    simp only [if_neg h00, if_pos h01, if_pos h10, if_pos h11]
    rw [show (0 + 2 + 4 + 8 : ℕ) = 14 from by norm_num]
    rw [if_neg (by norm_num : ¬ ((14:ℕ) = 0 ∨ (14:ℕ) = 15))]
    rw [if_pos (show (14:ℕ) = 1 ∨ True from Or.inr trivial)]
    rw [htie]
    have hp : pickProp (1/2 : ℚ) (fp x y) (fp (x + mcpCellSize) y) =
        fp x y := by simp [pickProp]
    rw [hp]
    exact split_edge_head _ _ _ _

/-- The concrete counterexample to C6 as stated: on the cell at the origin
of tieField, the bottom-edge crossing sits exactly at offset 0.5, yet the
boundary vertex is painted with the property of the FIRST endpoint (0,0)
of the adapt call, which differs from the property of the second endpoint
(1,0) that the claim prescribes. -/
theorem claim_C6_counterexample :
    adaptProp (tieField 0 0) (tieField mcpCellSize 0) = 1/2 ∧
    marching_cubes_2d_single_cell tieField coordProp 0 0 =
      [{ v1 := (1/2, 0), v2 := (0, 1/2), prop := (0, 0) }] ∧
    coordProp 0 0 ≠ coordProp mcpCellSize 0 := by
  refine ⟨?_, ?_, ?_⟩
  · norm_num [adaptProp, tieField, mcpAdaptive, mcpCellSize]
  · norm_num [marching_cubes_2d_single_cell, adaptProp, split_edge,
      pickProp, tieField, coordProp, mcpAdaptive, mcpCellSize]
  · norm_num [coordProp, mcpCellSize, Prod.ext_iff]

/-- Witness for the amended C6 at the concrete tie cell. -/
theorem claim_C6_witness :
    (¬ tieField 0 0 > 0) ∧
    adaptProp (tieField 0 0) (tieField (0 + mcpCellSize) 0) = 1/2 ∧
    ((∀ p q : ℚ × ℚ, pickProp (1/2 : ℚ) p q = p) ∧
    (∃ w rest, marching_cubes_2d_single_cell tieField coordProp 0 0 =
      { v1 := ((0:ℚ) + 1/2, (0:ℚ)), v2 := w,
        prop := coordProp 0 0 } :: rest)) :=
  ⟨by norm_num [tieField],
   by norm_num [adaptProp, tieField, mcpAdaptive, mcpCellSize],
   claim_C6 tieField coordProp 0 0
     (by norm_num [tieField])
     (by norm_num [tieField, mcpCellSize])
     (by norm_num [tieField, mcpCellSize])
     (by norm_num [tieField, mcpCellSize])
     (by norm_num [adaptProp, tieField, mcpAdaptive, mcpCellSize])⟩

/-! ## Claim C9 -/

/-- C9: for inputs of which exactly one is strictly positive, adapt returns
the linear-interpolation root scaled by CELL_SIZE when ADAPTIVE is on (so
adapt (-1) 1 with the shipped cell size 1 gives 1/2), the fixed midpoint
when ADAPTIVE is off, and in both modes a value inside [0, CELL_SIZE]. -/
theorem claim_C9 (s : Settings) (v0 v1 : ℚ)
    (h : decide (v1 > 0) ≠ decide (v0 > 0)) (hcs : 0 ≤ s.cellSize) :
    (s.adaptive = true →
      adapt s v0 v1 = some ((0 - v0) / (v1 - v0) * s.cellSize)) ∧
    (s.adaptive = false → adapt s v0 v1 = some (1/2 * s.cellSize)) ∧
    (∀ r, adapt s v0 v1 = some r → 0 ≤ r ∧ r ≤ s.cellSize) ∧
    adapt defaultSettings (-1) 1 = some (1/2) := by
  refine ⟨?_, ?_, ?_, ?_⟩
  · intro had
    rw [adapt_eq_some s v0 v1 h]
    unfold adaptVal
    rw [had]
    simp
  · intro had
    rw [adapt_eq_some s v0 v1 h]
    unfold adaptVal
    rw [had]
    simp
  · intro r hr
    rw [adapt_eq_some s v0 v1 h] at hr
    obtain ⟨hb1, hb2⟩ := adaptVal_bounds s v0 v1 h hcs
    have : adaptVal s v0 v1 = r := Option.some.inj hr
    rw [← this]
    exact ⟨hb1, hb2⟩
  · norm_num [adapt, adaptVal, defaultSettings]

/-- Witness for C9 at the concrete pair (-1, 1) with the shipped
settings. -/
theorem claim_C9_witness :
    (decide ((1:ℚ) > 0) ≠ decide ((-1:ℚ) > 0)) ∧
    (0:ℚ) ≤ defaultSettings.cellSize ∧
    ((defaultSettings.adaptive = true →
      adapt defaultSettings (-1) 1 =
        some ((0 - (-1)) / (1 - (-1)) * defaultSettings.cellSize)) ∧
    (defaultSettings.adaptive = false →
      adapt defaultSettings (-1) 1 =
        some (1/2 * defaultSettings.cellSize)) ∧
    (∀ r, adapt defaultSettings (-1) 1 = some r →
      0 ≤ r ∧ r ≤ defaultSettings.cellSize) ∧
    adapt defaultSettings (-1) 1 = some (1/2)) :=
  ⟨by norm_num, by norm_num [defaultSettings],
    claim_C9 defaultSettings (-1) 1 (by norm_num)
      (by norm_num [defaultSettings])⟩

/-! ## Claim C10 -/

/-- C10: with BIAS enabled the two solvers hand back position/normal lists
extended in place by the bias entries (the mass point repeated and one
scaled axis normal per axis: two extra entries each in 2-d, three in 3-d);
with BIAS disabled the lists come back unchanged. -/
theorem claim_C10 (s : Settings) (lstsq : Lstsq) (x y X Y Z : ℚ)
    (ps2 ns2 : List (ℚ × ℚ)) (ps3 ns3 : List (ℚ × ℚ × ℚ)) :
    ((solve_qef_2d s lstsq x y ps2 ns2).positionsOut =
      (if s.bias = true then ps2 ++ [mean2 ps2, mean2 ps2] else ps2)) ∧
    ((solve_qef_2d s lstsq x y ps2 ns2).normalsOut =
      (if s.bias = true then
        ns2 ++ [(s.biasStrength, 0), (0, s.biasStrength)] else ns2)) ∧
    ((solve_qef_2d s lstsq x y ps2 ns2).positionsOut.length =
      (if s.bias = true then ps2.length + 2 else ps2.length)) ∧
    ((solve_qef_2d s lstsq x y ps2 ns2).normalsOut.length =
      (if s.bias = true then ns2.length + 2 else ns2.length)) ∧
    ((solve_qef_3d s lstsq X Y Z ps3 ns3).positionsOut =
      (if s.bias = true then
        ps3 ++ [mean3 ps3, mean3 ps3, mean3 ps3] else ps3)) ∧
    ((solve_qef_3d s lstsq X Y Z ps3 ns3).normalsOut =
      (if s.bias = true then
        ns3 ++ [(s.biasStrength, 0, 0), (0, s.biasStrength, 0),
          (0, 0, s.biasStrength)] else ns3)) ∧
    ((solve_qef_3d s lstsq X Y Z ps3 ns3).positionsOut.length =
      (if s.bias = true then ps3.length + 3 else ps3.length)) ∧
    ((solve_qef_3d s lstsq X Y Z ps3 ns3).normalsOut.length =
      (if s.bias = true then ns3.length + 3 else ns3.length)) := by
  have h2p : (solve_qef_2d s lstsq x y ps2 ns2).positionsOut =
      biasPositions2 s ps2 := rfl
  have h2n : (solve_qef_2d s lstsq x y ps2 ns2).normalsOut =
      biasNormals2 s ns2 := rfl
  have h3p : (solve_qef_3d s lstsq X Y Z ps3 ns3).positionsOut =
      biasPositions3 s ps3 := rfl
  have h3n : (solve_qef_3d s lstsq X Y Z ps3 ns3).normalsOut =
      biasNormals3 s ns3 := rfl
  rw [h2p, h2n, h3p, h3n]
  unfold biasPositions2 biasNormals2 biasPositions3 biasNormals3
  by_cases hb : s.bias = true <;>
    simp [hb, List.length_append, Nat.add_comm]

/-- Witness for C5 at a concrete field (two sign-changing edges in 2-d,
three in 3-d, so both finders deliver a vertex). -/
theorem claim_C5_witness :
    defaultSettings.adaptive = true ∧ (0:ℚ) ≤ defaultSettings.cellSize ∧
    (((dual_contour_2d_find_best_vertex defaultSettings lstsqZero
        (fun a b => a + b - 1/2) (fun _ _ => (1, 0)) 0 0 = none) ↔
      signChangeCount2d defaultSettings (fun a b => a + b - 1/2) 0 0 < 2) ∧
    ((dual_contour_3d_find_best_vertex defaultSettings lstsqZero
        (fun a b c => a + b + c - 1/2) (fun _ _ _ => (1, 0, 0)) 0 0 0 =
        none) ↔
      signChangeCount3d defaultSettings
        (fun a b c => a + b + c - 1/2) 0 0 0 < 2)) :=
  ⟨rfl, by norm_num [defaultSettings],
    claim_C5 defaultSettings lstsqZero
      (fun a b => a + b - 1/2) (fun _ _ => (1, 0)) 0 0
      (fun a b c => a + b + c - 1/2) (fun _ _ _ => (1, 0, 0)) 0 0 0
      rfl (by norm_num [defaultSettings])⟩

end McDc
